import Mathlib

/-!
# Verification of the marine-life occurrence store (`src/main.py`)

Shallow embedding of the single-file Python/SQLite program.  The embedding
models:

* a pandas row (`Row`): every recognized column is either absent from the
  frame (`none`), or carries a Python value.  A value in a textual column is
  either a proper string or the float `NaN` that pandas uses for an empty
  CSV cell (`PyStr.nan`).  A value in a numeric column is `NaN`, a number
  (`REAL`s are modelled as `Rat`; every literal appearing in the claims is
  exactly representable), or an object that the `sqlite3` driver cannot
  bind (`NumVal.obj`), in which case `cursor.execute` raises.  We model
  unbindable objects only in the numeric columns; that is the input space
  needed by the failure-isolation claims.
* the SQLite store (`DB`): one list per table plus the `AUTOINCREMENT`
  counters.  SQLite specifics that the program relies on are reproduced:
  `NaN` binds as `NULL`; a `NULL` never compares equal to anything
  (`sqlEq`), so rows whose `UNIQUE` key contains a `NULL` never conflict
  and key lookups with a `NULL` parameter find nothing; `INSERT OR IGNORE`
  silently skips the insert on any constraint violation (`NOT NULL`,
  `UNIQUE`, primary key); `INSERT OR REPLACE` deletes every row that
  conflicts on the primary key and inserts the new row; foreign keys are
  not enforced (the program never issues `PRAGMA foreign_keys`).
-/

set_option autoImplicit false

namespace MarineDB

/-- A Python value sitting in a textual column: either the float `NaN`
(pandas' missing value) or an actual string. -/
inductive PyStr where
  | nan
  | s (v : String)
deriving DecidableEq

/-- Python `str(..)` applied to such a value (`str(float('nan')) = "nan"`). -/
def PyStr.toStr : PyStr → String
  | .nan => "nan"
  | .s v => v

/-- Binding such a value as a SQL parameter: `NaN` is stored as SQL `NULL`. -/
def PyStr.toSql : PyStr → Option String
  | .nan => none
  | .s v => some v

/-- A Python value sitting in a numeric column: `NaN`, a number, or an
object the `sqlite3` driver cannot bind (binding it raises). -/
inductive NumVal where
  | nan
  | num (q : Rat)
  | obj
deriving DecidableEq

/-- Binding a numeric value as a SQL parameter.  `none` means the
`cursor.execute` call raises (`InterfaceError`); `some none` is SQL `NULL`. -/
def NumVal.bindSql : NumVal → Option (Option Rat)
  | .nan => some none
  | .num q => some (some q)
  | .obj => none

/-- The SQL value a bindable numeric Python value is stored as. -/
def NumVal.sqlVal : NumVal → Option Rat
  | .nan => none
  | .num q => some q
  | .obj => none

/-- One source row, as produced by `pandas` (`df.iterrows()` /
`pd.DataFrame([record_data]).iloc[0]`).  `none` means the column is absent
from the frame, so `row.get(col, default)` yields the default. -/
structure Row where
  occurrence_id : Option PyStr := none
  organism_id : Option PyStr := none
  scientific_name : Option PyStr := none
  vernacular_name : Option PyStr := none
  taxon_rank : Option PyStr := none
  organism_name : Option PyStr := none
  sex : Option PyStr := none
  organism_remarks : Option PyStr := none
  recorded_by : Option PyStr := none
  institution_code : Option PyStr := none
  higher_geography : Option PyStr := none
  water_body : Option PyStr := none
  locality : Option PyStr := none
  verbatim_locality : Option PyStr := none
  event_id : Option PyStr := none
  basis_of_record : Option PyStr := none
  individual_count : Option NumVal := none
  preparations : Option PyStr := none
  occurrence_remarks : Option PyStr := none
  external_resource : Option PyStr := none
  external_resource_thumb : Option PyStr := none
  license : Option PyStr := none
  rights_holder : Option PyStr := none
  catalog_number : Option PyStr := none
  oid : Option PyStr := none
  type : Option PyStr := none
  modified : Option PyStr := none
  language : Option PyStr := none
  decimal_latitude : Option NumVal := none
  decimal_longitude : Option NumVal := none
  event_date : Option PyStr := none
  event_time : Option PyStr := none
  coordinate_precision : Option NumVal := none
  geodetic_datum : Option PyStr := none
  notes : Option PyStr := none
deriving DecidableEq

/-- `row.get(col, '')` followed by SQL parameter binding. -/
def sGet (c : Option PyStr) : Option String :=
  (c.getD (.s "")).toSql

/-- `row.get(col, 0)` / `row.get(col, 0.0)` followed by SQL binding
(`none` = the execute call raises on an unbindable object). -/
def nGet (c : Option NumVal) : Option (Option Rat) :=
  (c.getD (.num 0)).bindSql

/-- The stored SQL value of a numeric column when binding succeeds. -/
def ratGet (c : Option NumVal) : Option Rat :=
  (c.getD (.num 0)).sqlVal

/-- `str(row.get('organism_id', row.get('occurrence_id', '')))`. -/
def Row.orgIdStr (r : Row) : String :=
  ((r.organism_id).getD ((r.occurrence_id).getD (.s ""))).toStr

/-- `str(row.get('event_id', row.get('occurrence_id', '')))`. -/
def Row.evIdStr (r : Row) : String :=
  ((r.event_id).getD ((r.occurrence_id).getD (.s ""))).toStr

/-- A row of table `Organism` (`organism_id TEXT PRIMARY KEY`,
`scientific_name TEXT NOT NULL`). -/
structure OrganismRow where
  organism_id : String
  scientific_name : String
  vernacular_name : Option String
  taxon_rank : Option String
  organism_name : Option String
  sex : Option String
  organism_remarks : Option String
deriving DecidableEq

/-- A row of table `Observer` (`observer_id INTEGER PRIMARY KEY
AUTOINCREMENT`, `recorded_by TEXT NOT NULL UNIQUE`). -/
structure ObserverRow where
  observer_id : Nat
  recorded_by : String
  institution_code : Option String
deriving DecidableEq

/-- A row of table `Location` (`UNIQUE(higher_geography, water_body,
locality, verbatim_locality)`). -/
structure LocationRow where
  location_id : Nat
  higher_geography : Option String
  water_body : Option String
  locality : Option String
  verbatim_locality : Option String
deriving DecidableEq

/-- A row of table `Event` (`event_id TEXT PRIMARY KEY`). -/
structure EventRow where
  event_id : String
  basis_of_record : Option String
  individual_count : Option Rat
  preparations : Option String
  occurrence_remarks : Option String
deriving DecidableEq

/-- A row of table `Media` (`UNIQUE(external_resource, catalog_number)`). -/
structure MediaRow where
  media_id : Nat
  external_resource : Option String
  external_resource_thumb : Option String
  license : Option String
  rights_holder : Option String
  catalog_number : Option String
deriving DecidableEq

/-- A row of table `DatasetMetadata` (no uniqueness constraint at all). -/
structure DatasetMetadataRow where
  dataset_metadata_id : Nat
  oid : Option String
  type : Option String
  modified : Option String
  language : Option String
deriving DecidableEq

/-- A row of the fact table `Record` (`occurrence_id TEXT PRIMARY KEY`).
SQLite permits `NULL` in a non-INTEGER primary key, and distinct rows may
all have a `NULL` key, hence `Option String`. -/
structure RecordRow where
  occurrence_id : Option String
  decimal_latitude : Option Rat
  decimal_longitude : Option Rat
  event_date : Option String
  event_time : Option String
  coordinate_precision : Option Rat
  geodetic_datum : Option String
  event_id : String
  organism_id : String
  observer_id : Option Nat
  location_id : Option Nat
  media_id : Option Nat
  dataset_metadata_id : Nat
deriving DecidableEq

/-- The store: the seven tables (in insertion order, which is SQLite's scan
order) plus the `AUTOINCREMENT` counters. -/
structure DB where
  organism : List OrganismRow
  observer : List ObserverRow
  observerNext : Nat
  location : List LocationRow
  locationNext : Nat
  event : List EventRow
  media : List MediaRow
  mediaNext : Nat
  datasetMetadata : List DatasetMetadataRow
  dmNext : Nat
  record : List RecordRow
deriving DecidableEq

/-- The store right after `create_tables` on a fresh file
(`AUTOINCREMENT` starts at 1). -/
def emptyDB : DB :=
  ⟨[], [], 1, [], 1, [], [], 1, [], 1, []⟩

/-- SQL equality used in `WHERE` clauses and in `UNIQUE` indices: a `NULL`
is never equal to anything, including another `NULL`. -/
def sqlEq (a b : Option String) : Bool :=
  match a, b with
  | some x, some y => x == y
  | _, _ => false

/-- Does an `Organism` row with this primary key exist? -/
def hasOrg (db : DB) (k : String) : Bool :=
  db.organism.any (fun o => o.organism_id == k)

/-- Does an `Observer` row with this `recorded_by` exist? -/
def hasObs (db : DB) (v : String) : Bool :=
  db.observer.any (fun o => o.recorded_by == v)

/-- Would a `Location` insert with these four key values hit the `UNIQUE`
index?  (Also exactly the `SELECT location_id ... WHERE` match.) -/
def locMatch (l : LocationRow) (hg wb lc vl : Option String) : Bool :=
  sqlEq l.higher_geography hg && sqlEq l.water_body wb &&
    sqlEq l.locality lc && sqlEq l.verbatim_locality vl

/-- Conflict test for the `Location` unique index. -/
def locConflict (db : DB) (hg wb lc vl : Option String) : Bool :=
  db.location.any (fun l => locMatch l hg wb lc vl)

/-- Does an `Event` row with this primary key exist? -/
def hasEvent (db : DB) (k : String) : Bool :=
  db.event.any (fun e => e.event_id == k)

/-- Match for the `Media` unique index / key lookup. -/
def medMatch (m : MediaRow) (er cn : Option String) : Bool :=
  sqlEq m.external_resource er && sqlEq m.catalog_number cn

/-- Conflict test for the `Media` unique index. -/
def medConflict (db : DB) (er cn : Option String) : Bool :=
  db.media.any (fun m => medMatch m er cn)

/-- `_insert_organism`: `INSERT OR IGNORE` into `Organism`, then return the
(always locally computed) `organism_id`.  The insert is skipped when the
primary key already exists or when `scientific_name` would be `NULL`
(`NOT NULL` violation, silently ignored). -/
def _insert_organism (db : DB) (r : Row) : DB × String :=
  let oid := r.orgIdStr
  match sGet r.scientific_name with
  | none => (db, oid)
  | some sci =>
    if hasOrg db oid then (db, oid)
    else
      ({ db with organism := db.organism ++
          [⟨oid, sci, sGet r.vernacular_name, sGet r.taxon_rank,
            sGet r.organism_name, sGet r.sex, sGet r.organism_remarks⟩] },
       oid)

/-- `_insert_observer`: `INSERT OR IGNORE` into `Observer` (skipped when
`recorded_by` is `NULL` or already present), then
`SELECT observer_id ... WHERE recorded_by = ?` (which finds nothing when
the parameter is `NULL`). -/
def _insert_observer (db : DB) (r : Row) : DB × Option Nat :=
  let rb := sGet r.recorded_by
  let db1 :=
    match rb with
    | none => db
    | some v =>
      if hasObs db v then db
      else { db with
        observer := db.observer ++ [⟨db.observerNext, v, sGet r.institution_code⟩],
        observerNext := db.observerNext + 1 }
  match rb with
  | none => (db1, none)
  | some v => (db1, (db1.observer.find? (fun o => o.recorded_by == v)).map (·.observer_id))

/-- `_insert_location`: `INSERT OR IGNORE` into `Location` (skipped only on
a `UNIQUE` conflict, which requires all four key values non-`NULL`), then
the four-way key-equality lookup. -/
def _insert_location (db : DB) (r : Row) : DB × Option Nat :=
  let hg := sGet r.higher_geography
  let wb := sGet r.water_body
  let lc := sGet r.locality
  let vl := sGet r.verbatim_locality
  let db1 :=
    if locConflict db hg wb lc vl then db
    else { db with
      location := db.location ++ [⟨db.locationNext, hg, wb, lc, vl⟩],
      locationNext := db.locationNext + 1 }
  (db1, (db1.location.find? (fun l => locMatch l hg wb lc vl)).map (·.location_id))

/-- `_insert_event`: binding `individual_count` may raise (`.error`, store
unchanged); otherwise `INSERT OR IGNORE` keyed by `event_id` and return the
locally computed `event_id`. -/
def _insert_event (db : DB) (r : Row) : Except DB (DB × String) :=
  let eid := r.evIdStr
  match nGet r.individual_count with
  | none => .error db
  | some cnt =>
    if hasEvent db eid then .ok (db, eid)
    else .ok
      ({ db with event := db.event ++
          [⟨eid, sGet r.basis_of_record, cnt, sGet r.preparations,
            sGet r.occurrence_remarks⟩] },
       eid)

/-- `_insert_media`: `INSERT OR IGNORE` into `Media` (skipped only on a
`UNIQUE` conflict over the two key columns), then the key-equality
lookup. -/
def _insert_media (db : DB) (r : Row) : DB × Option Nat :=
  let er := sGet r.external_resource
  let cn := sGet r.catalog_number
  let db1 :=
    if medConflict db er cn then db
    else { db with
      media := db.media ++
        [⟨db.mediaNext, er, sGet r.external_resource_thumb, sGet r.license,
          sGet r.rights_holder, cn⟩],
      mediaNext := db.mediaNext + 1 }
  (db1, (db1.media.find? (fun m => medMatch m er cn)).map (·.media_id))

/-- `_insert_dataset_metadata`: plain `INSERT` (never deduplicated), return
`cursor.lastrowid`. -/
def _insert_dataset_metadata (db : DB) (r : Row) : DB × Nat :=
  ({ db with
      datasetMetadata := db.datasetMetadata ++
        [⟨db.dmNext, sGet r.oid, sGet r.type, sGet r.modified, sGet r.language⟩],
      dmNext := db.dmNext + 1 },
   db.dmNext)

/-- The rows an `INSERT OR REPLACE` keyed on `occurrence_id` keeps: every
row whose key does not conflict with the incoming one (a `NULL` key never
conflicts). -/
def keepOther (l : List RecordRow) (occ : Option String) : List RecordRow :=
  match occ with
  | none => l
  | some x => l.filter (fun q => !(q.occurrence_id == some x))

/-- `_insert_record`: bind the three `REAL` parameters (raising on an
unbindable object, store unchanged), then `INSERT OR REPLACE` into
`Record`. -/
def _insert_record (db : DB) (r : Row) (organism_id : String)
    (observer_id : Option Nat) (location_id : Option Nat) (event_id : String)
    (media_id : Option Nat) (dataset_metadata_id : Nat) : Except DB DB :=
  match nGet r.decimal_latitude, nGet r.decimal_longitude,
        nGet r.coordinate_precision with
  | some lat, some lon, some cp =>
    let occ := sGet r.occurrence_id
    .ok { db with record := keepOther db.record occ ++
      [⟨occ, lat, lon, sGet r.event_date, sGet r.event_time, cp,
        sGet r.geodetic_datum, event_id, organism_id, observer_id,
        location_id, media_id, dataset_metadata_id⟩] }
  | _, _, _ => .error db

/-- `_process_csv_row`: the Row Normalizer.  The six entity resolvers run in
the fixed order, then the fact write.  The `notes` JSON side-payload is
parsed and discarded by the source (a parse failure is swallowed and the
parsed value is never used), so it has no effect on the store and is not
read here.  An exception (`.error`) carries the store as it stands at the
raise point: the partial changes of a failed row stay pending on the
connection. -/
def _process_csv_row (db : DB) (r : Row) : Except DB DB :=
  let p1 := _insert_organism db r
  let p2 := _insert_observer p1.1 r
  let p3 := _insert_location p2.1 r
  match _insert_event p3.1 r with
  | .error e => .error e
  | .ok pe =>
    let p5 := _insert_media pe.1 r
    let p6 := _insert_dataset_metadata p5.1 r
    _insert_record p6.1 r p1.2 p2.2 p3.2 pe.2 p5.2 p6.2

/-- One iteration of the ingestion loop: a per-row exception is logged and
the loop continues (the row's partial changes remain pending and are
committed with the batch). -/
def processOne (db : DB) (r : Row) : DB :=
  match _process_csv_row db r with
  | .ok db' => db'
  | .error db' => db'

/-- `load_csv_data`: `none` models `pd.read_csv` itself failing (rollback,
nothing of this batch committed); otherwise every row is processed inside
the per-row failure boundary and the batch is committed once. -/
def load_csv_data (db : DB) (csv : Option (List Row)) : DB :=
  match csv with
  | none => db
  | some rows => rows.foldl processOne db

/-- Does binding `individual_count` succeed (`_insert_event` does not
raise)? -/
def evBindOk (r : Row) : Bool :=
  !((r.individual_count.getD (.num 0)) == .obj)

/-- Do the three `REAL` bindings of `_insert_record` succeed? -/
def recBindOk (r : Row) : Bool :=
  !((r.decimal_latitude.getD (.num 0)) == .obj) &&
    !((r.decimal_longitude.getD (.num 0)) == .obj) &&
    !((r.coordinate_precision.getD (.num 0)) == .obj)

/-- Does the whole of `_process_csv_row` run without raising? -/
def rowBindsOk (r : Row) : Bool :=
  evBindOk r && recBindOk r

/-- The organism dedup condition: the `Organism` insert is skipped iff it
holds. -/
def orgSettled (r : Row) (db : DB) : Bool :=
  (sGet r.scientific_name).isNone || hasOrg db r.orgIdStr

/-- The observer dedup condition. -/
def obsSettled (r : Row) (db : DB) : Bool :=
  (sGet r.recorded_by).elim true (fun v => hasObs db v)

/-- The location dedup condition (only attainable when all four key values
are non-`NULL`). -/
def locSettled (r : Row) (db : DB) : Bool :=
  locConflict db (sGet r.higher_geography) (sGet r.water_body)
    (sGet r.locality) (sGet r.verbatim_locality)

/-- The event dedup condition. -/
def evSettled (r : Row) (db : DB) : Bool :=
  !(evBindOk r) || hasEvent db r.evIdStr

/-- The media dedup condition. -/
def medSettled (r : Row) (db : DB) : Bool :=
  medConflict db (sGet r.external_resource) (sGet r.catalog_number)

/-- All dedup conditions for a row: re-processing a settled row inserts no
entity row.  (Media is only reached when the event bind succeeds.) -/
def settled (r : Row) (db : DB) : Bool :=
  orgSettled r db && obsSettled r db && locSettled r db && evSettled r db &&
    (!(evBindOk r) || medSettled r db)

/-- No `NULL` among the `Location` and `Media` natural-key values of the
row — the condition under which re-ingestion cannot duplicate entity
rows. -/
def goodKeys (r : Row) : Bool :=
  (sGet r.higher_geography).isSome && (sGet r.water_body).isSome &&
    (sGet r.locality).isSome && (sGet r.verbatim_locality).isSome &&
    (sGet r.external_resource).isSome && (sGet r.catalog_number).isSome

/-- The five deduplicated entity tables only ever grow during ingestion. -/
def entExt (db db' : DB) : Prop :=
  (∃ l, db'.organism = db.organism ++ l) ∧
    (∃ l, db'.observer = db.observer ++ l) ∧
    (∃ l, db'.location = db.location ++ l) ∧
    (∃ l, db'.event = db.event ++ l) ∧
    (∃ l, db'.media = db.media ++ l)

/-! ## Query service (`search_records`) -/

/-- A result row of the `Record ⋈ Organism ⋈ Observer ⋈ Location` join. -/
abbrev Joined := RecordRow × OrganismRow × ObserverRow × LocationRow

/-- Substring test of SQL `LIKE '%needle%'` (over a needle free of the
wildcard characters `%` and `_`).  SQLite's `LIKE` is ASCII
case-insensitive, as is Lean's `Char.toLower`. -/
def subMatch (n : List Char) : List Char → Bool
  | [] => n.isEmpty
  | c :: t => n.isPrefixOf (c :: t) || subMatch n t

/-- `column LIKE '%needle%'`. -/
def likeContains (needle hay : String) : Bool :=
  subMatch needle.toLower.toList hay.toLower.toList

/-- SQL `ORDER BY` comparison on a nullable `TEXT` column: `NULL` sorts
before every string. -/
def sqlStrLe (a b : Option String) : Bool :=
  match a, b with
  | none, _ => true
  | some _, none => false
  | some x, some y => x == y || decide (x < y)

/-- `ORDER BY r.event_date DESC`: `x` may precede `y` iff
`y.event_date ≤ x.event_date` in SQL order (`NULL`s last). -/
def dateDescLe (x y : Joined) : Bool :=
  sqlStrLe y.1.event_date x.1.event_date

/-- Insert into a `le`-sorted list. -/
def insertOrd {α : Type _} (le : α → α → Bool) (a : α) : List α → List α
  | [] => [a]
  | b :: t => if le a b then a :: b :: t else b :: insertOrd le a t

/-- Insertion sort; models `ORDER BY` (the claims proved about query
results are insensitive to the particular sorted permutation). -/
def insSort {α : Type _} (le : α → α → Bool) : List α → List α
  | [] => []
  | a :: t => insertOrd le a (insSort le t)

/-- The keyword arguments of `search_records`; `none` means the argument
was not passed. -/
structure SearchArgs where
  species : Option String := none
  location : Option String := none
  observer : Option String := none
  start_date : Option String := none
  end_date : Option String := none
deriving DecidableEq

/-- `search_records` with no keyword arguments. -/
def noFilters : SearchArgs := {}

/-- Python truthiness of `kwargs.get(k)`: a filter is applied only when the
argument is present and not the empty string. -/
def supplied (o : Option String) : Option String :=
  match o with
  | none => none
  | some v => if v == "" then none else some v

/-- The inner join `Record ⋈ Organism ⋈ Observer ⋈ Location` on the three
foreign keys (a `NULL` foreign key matches nothing, dropping the fact
row). -/
def joinAll (db : DB) : List Joined :=
  db.record.flatMap (fun rr =>
    (db.organism.filter (fun o => o.organism_id == rr.organism_id)).flatMap (fun o =>
      (db.observer.filter (fun ob => rr.observer_id == some ob.observer_id)).flatMap (fun ob =>
        (db.location.filter (fun l => rr.location_id == some l.location_id)).map (fun l =>
          (rr, o, ob, l)))))

/-- The conjunction of the `WHERE` conditions built by `search_records`
(an absent filter contributes no condition; a `NULL` column never
satisfies a condition). -/
def passes (a : SearchArgs) (j : Joined) : Bool :=
  (match supplied a.species with
   | none => true
   | some s => likeContains s j.2.1.scientific_name) &&
  (match supplied a.location with
   | none => true
   | some s => (j.2.2.2.locality).elim false (fun v => likeContains s v)) &&
  (match supplied a.observer with
   | none => true
   | some s => likeContains s j.2.2.1.recorded_by) &&
  (match supplied a.start_date with
   | none => true
   | some s => (j.1.event_date).elim false (fun d => s == d || decide (s < d))) &&
  (match supplied a.end_date with
   | none => true
   | some s => (j.1.event_date).elim false (fun d => d == s || decide (d < s)))

/-- `search_records`: join, filter by the ANDed conditions, order by event
date descending. -/
def search_records (db : DB) (a : SearchArgs) : List Joined :=
  insSort dateDescLe ((joinAll db).filter (passes a))

/-! ## Mutation service -/

/-- `add_new_record`: runs the full normalization path on the one record
and commits; on an exception it rolls the pending changes back and
re-raises (`.error` carries the unchanged committed store).  Returns
`record_data.get('occurrence_id', f"new_{datetime.now()...}")` — the
nondeterministic timestamp is passed in as `now`. -/
def add_new_record (db : DB) (rd : Row) (now : String) : Except DB (DB × PyStr) :=
  match _process_csv_row db rd with
  | .error _ => .error db
  | .ok db' => .ok (db', rd.occurrence_id.getD (.s ("new_" ++ now)))

/-- `delete_record`: `DELETE FROM Record WHERE occurrence_id = ?`; commits
and returns `True` iff `cursor.rowcount > 0`. -/
def delete_record (db : DB) (occ : String) : DB × Bool :=
  if db.record.any (fun rr => rr.occurrence_id == some occ) then
    ({ db with record := db.record.filter (fun rr => !(rr.occurrence_id == some occ)) },
     true)
  else (db, false)

/-- The `update_data` dict, restricted to the six recognized `Record`
scalar fields (`update_record` reads no other key, so unrecognized keys in
the dict are invisible to it).  `none` means the key is absent. -/
structure UpdateData where
  decimal_latitude : Option NumVal := none
  decimal_longitude : Option NumVal := none
  event_date : Option PyStr := none
  event_time : Option PyStr := none
  coordinate_precision : Option NumVal := none
  geodetic_datum : Option PyStr := none
deriving DecidableEq

/-- Was at least one recognized field supplied (`if update_fields:`)? -/
def anySupplied (u : UpdateData) : Bool :=
  u.decimal_latitude.isSome || u.decimal_longitude.isSome ||
    u.event_date.isSome || u.event_time.isSome ||
    u.coordinate_precision.isSome || u.geodetic_datum.isSome

/-- Do all supplied numeric values bind (an unbindable object makes the
`UPDATE` execute raise)? -/
def updBindsOk (u : UpdateData) : Bool :=
  (u.decimal_latitude.elim true (fun v => !(v == .obj))) &&
    (u.decimal_longitude.elim true (fun v => !(v == .obj))) &&
    (u.coordinate_precision.elim true (fun v => !(v == .obj)))

/-- Apply the `SET` clauses of the `UPDATE` to one matching row: only the
six scalar columns can change. -/
def applyUpd (u : UpdateData) (rr : RecordRow) : RecordRow :=
  { rr with
    decimal_latitude :=
      match u.decimal_latitude with
      | none => rr.decimal_latitude
      | some v => v.sqlVal
    decimal_longitude :=
      match u.decimal_longitude with
      | none => rr.decimal_longitude
      | some v => v.sqlVal
    event_date :=
      match u.event_date with
      | none => rr.event_date
      | some v => v.toSql
    event_time :=
      match u.event_time with
      | none => rr.event_time
      | some v => v.toSql
    coordinate_precision :=
      match u.coordinate_precision with
      | none => rr.coordinate_precision
      | some v => v.sqlVal
    geodetic_datum :=
      match u.geodetic_datum with
      | none => rr.geodetic_datum
      | some v => v.toSql }

/-- `update_record`: fetch the row (`False` if absent), collect the
recognized fields (`False` if none), run the `UPDATE` (rollback and
`False` if binding raises), commit and return `True`. -/
def update_record (db : DB) (occ : String) (u : UpdateData) : DB × Bool :=
  if db.record.any (fun rr => rr.occurrence_id == some occ) then
    if anySupplied u then
      if updBindsOk u then
        ({ db with record := db.record.map (fun rr =>
            if rr.occurrence_id == some occ then applyUpd u rr else rr) },
         true)
      else (db, false)
    else (db, false)
  else (db, false)

/-- The projection of a fact row to its key and the six foreign-key
columns — everything `update_record` must leave untouched. -/
def fkKey (rr : RecordRow) :
    Option String × String × String × Option Nat × Option Nat × Option Nat × Nat :=
  (rr.occurrence_id, rr.event_id, rr.organism_id, rr.observer_id,
    rr.location_id, rr.media_id, rr.dataset_metadata_id)

/-! ## Defaulting -/

/-- `some (c.getD (.s ""))`, factored out (kept out-of-line for the code
generator). -/
@[noinline] def sDflt (c : Option PyStr) : Option PyStr :=
  some (c.getD (.s ""))

/-- `some (c.getD (.num 0))`, factored out. -/
@[noinline] def nDflt (c : Option NumVal) : Option NumVal :=
  some (c.getD (.num 0))

/-- The row with every absent field replaced by the default the code
supplies at each `row.get` call: the empty string for textual fields, zero
for numeric fields — except `organism_id` and `event_id`, whose default is
the row's `occurrence_id` value (itself defaulting to the empty
string). -/
def withDefaults (r : Row) : Row :=
  Row.mk
    (sDflt r.occurrence_id)
    (some (r.organism_id.getD (r.occurrence_id.getD (.s ""))))
    (sDflt r.scientific_name)
    (sDflt r.vernacular_name)
    (sDflt r.taxon_rank)
    (sDflt r.organism_name)
    (sDflt r.sex)
    (sDflt r.organism_remarks)
    (sDflt r.recorded_by)
    (sDflt r.institution_code)
    (sDflt r.higher_geography)
    (sDflt r.water_body)
    (sDflt r.locality)
    (sDflt r.verbatim_locality)
    (some (r.event_id.getD (r.occurrence_id.getD (.s ""))))
    (sDflt r.basis_of_record)
    (nDflt r.individual_count)
    (sDflt r.preparations)
    (sDflt r.occurrence_remarks)
    (sDflt r.external_resource)
    (sDflt r.external_resource_thumb)
    (sDflt r.license)
    (sDflt r.rights_holder)
    (sDflt r.catalog_number)
    (sDflt r.oid)
    (sDflt r.type)
    (sDflt r.modified)
    (sDflt r.language)
    (nDflt r.decimal_latitude)
    (nDflt r.decimal_longitude)
    (sDflt r.event_date)
    (sDflt r.event_time)
    (nDflt r.coordinate_precision)
    (sDflt r.geodetic_datum)
    (sDflt r.notes)

/-! ## Concrete inputs used by witnesses and counterexamples -/

/-- A well-populated source row (occurrence `X`, latitude 10). -/
def rowX10 : Row :=
  { occurrence_id := some (.s "X"), scientific_name := some (.s "Balaenoptera"),
    recorded_by := some (.s "Alice"), locality := some (.s "Monterey Bay"),
    water_body := some (.s "Pacific"), external_resource := some (.s "http"),
    catalog_number := some (.s "C1"), decimal_latitude := some (.num 10),
    event_date := some (.s "2024-01-01") }

/-- The same occurrence `X` re-ingested with latitude 20 and no
`event_time`. -/
def rowX20 : Row :=
  { occurrence_id := some (.s "X"), scientific_name := some (.s "Balaenoptera"),
    recorded_by := some (.s "Alice"), locality := some (.s "Monterey Bay"),
    water_body := some (.s "Pacific"), external_resource := some (.s "http"),
    catalog_number := some (.s "C1"), decimal_latitude := some (.num 20),
    event_date := some (.s "2024-01-02") }

/-- A second, distinct occurrence. -/
def rowY : Row :=
  { occurrence_id := some (.s "Y"), scientific_name := some (.s "Orcinus"),
    recorded_by := some (.s "Bob"), locality := some (.s "Puget Sound"),
    external_resource := some (.s "http2"), catalog_number := some (.s "C2"),
    decimal_latitude := some (.num 5), event_date := some (.s "2024-02-01") }

/-- A row whose `individual_count` is an object `sqlite3` cannot bind:
processing it raises inside `_insert_event`. -/
def rowRaises : Row :=
  { occurrence_id := some (.s "BAD"), scientific_name := some (.s "Phocoena"),
    individual_count := some .obj }

/-- A row whose `locality` cell is `NaN` (an empty CSV cell), so the
`Location` natural key contains a `NULL`. -/
def rowNanLoc : Row :=
  { occurrence_id := some (.s "R1"), scientific_name := some (.s "Eschrichtius"),
    locality := some .nan }

/-- A row whose `scientific_name` cell is `NaN`: the `Organism` insert is
skipped (`NOT NULL` violation) and the fact row references a missing
organism. -/
def rowOrphan : Row :=
  { occurrence_id := some (.s "R1"), scientific_name := some .nan }

/-- A row with `NaN` in the `Observer`, `Location` and `Media` natural-key
fields (`recorded_by`, `locality`, `external_resource`). -/
def rowNanKeys : Row :=
  { occurrence_id := some (.s "K"), scientific_name := some (.s "S"),
    recorded_by := some .nan, locality := some .nan,
    external_resource := some .nan }

/-- A row whose `NaN` key cells are `higher_geography` and
`catalog_number`. -/
def rowNanKeys2 : Row :=
  { occurrence_id := some (.s "K2"), scientific_name := some (.s "S"),
    higher_geography := some .nan, catalog_number := some .nan }

/-- A row whose `NaN` key cell is `water_body`. -/
def rowNanKeys3 : Row :=
  { occurrence_id := some (.s "K3"), scientific_name := some (.s "S"),
    water_body := some .nan }

/-- A row whose `NaN` key cell is `verbatim_locality`. -/
def rowNanKeys4 : Row :=
  { occurrence_id := some (.s "K4"), scientific_name := some (.s "S"),
    verbatim_locality := some .nan }

/-- A record supplied to `add_new_record` without an `occurrence_id`. -/
def rdNoOcc : Row :=
  { scientific_name := some (.s "Balaenoptera"), recorded_by := some (.s "Carol") }

/-- The store `add_new_record emptyDB rdNoOcc "20250101_000000"` commits. -/
def dbAfterAdd : DB :=
  match add_new_record emptyDB rdNoOcc "20250101_000000" with
  | .ok p => p.1
  | .error d => d

/-- The occurrence identifier that same call returns. -/
def addReturned : PyStr :=
  match add_new_record emptyDB rdNoOcc "20250101_000000" with
  | .ok p => p.2
  | .error _ => .nan

/-- A row with `occurrence_id` `"X"` but no `organism_id` column. -/
def rowOccOnlyOrg : Row :=
  { occurrence_id := some (.s "X"), scientific_name := some (.s "S") }

/-- A row carrying nothing but an `occurrence_id`. -/
def rowOnlyOcc : Row :=
  { occurrence_id := some (.s "X") }

/-- A row whose `locality` is the empty string. -/
def rowLocEmpty : Row :=
  { occurrence_id := some (.s "A"), scientific_name := some (.s "S") }

/-- A row whose `locality` is populated (all other key fields equal to
`rowLocEmpty`). -/
def rowLocFull : Row :=
  { occurrence_id := some (.s "B"), scientific_name := some (.s "S"),
    locality := some (.s "L") }

/-- A store holding one fully resolved fact row `X` plus a second fact row
`Z`, used by the update/delete/dedup witnesses. -/
def dbSeed : DB :=
  load_csv_data emptyDB (some [rowX10, rowY])

/-- A row that re-presents `rowX10`'s natural keys with different
auxiliary attributes (different `institution_code`, `vernacular_name` and
`license`). -/
def rowXAux : Row :=
  { occurrence_id := some (.s "X"), organism_id := some (.s "X"),
    scientific_name := some (.s "Different name"),
    vernacular_name := some (.s "Blue"), recorded_by := some (.s "Alice"),
    institution_code := some (.s "OTHER"), external_resource := some (.s "http"),
    catalog_number := some (.s "C1"), license := some (.s "CC0") }

/-- The two-row batch used by the re-ingestion witness. -/
def batchB : List Row := [rowX10, rowY]

/-! ## Stage lemmas

Each resolver either leaves the store unchanged or appends to exactly one
table; these lemmas capture the three facts the claim proofs need about
each stage: a *delta* form (the table only grows), a *no-insert* form
(under the dedup condition the store is untouched), and a *settles* form
(after the stage, the dedup condition for this row holds). -/

theorem any_mono {α : Type _} {l : List α} {p : α → Bool} (e : List α)
    (h : l.any p = true) : (l ++ e).any p = true := by
  simp [List.any_append, h]

theorem nGet_eq_some {c : Option NumVal}
    (h : ((c.getD (.num 0)) == NumVal.obj) = false) :
    nGet c = some (ratGet c) := by
  unfold nGet ratGet
  rcases hc : c.getD (.num 0) with _ | q
  · rfl
  · rfl
  · rw [hc] at h; simp at h

theorem nGet_eq_none {c : Option NumVal}
    (h : ((c.getD (.num 0)) == NumVal.obj) = true) :
    nGet c = none := by
  unfold nGet
  rcases hc : c.getD (.num 0) with _ | q
  · rw [hc] at h; simp at h
  · rw [hc] at h; simp at h
  · rfl

theorem org_noins {db : DB} {r : Row} (h : orgSettled r db = true) :
    _insert_organism db r = (db, r.orgIdStr) := by
  unfold _insert_organism
  unfold orgSettled at h
  rcases hs : sGet r.scientific_name with _ | sci
  · rfl
  · rw [hs] at h
    simp only [Option.isNone_some, Bool.false_or] at h
    simp [h]

theorem org_delta (db : DB) (r : Row) :
    ∃ l, (_insert_organism db r).1 = { db with organism := db.organism ++ l } := by
  unfold _insert_organism
  rcases hs : sGet r.scientific_name with _ | sci
  · exact ⟨[], by simp⟩
  · dsimp only
    split
    · exact ⟨[], by simp⟩
    · exact ⟨_, rfl⟩

theorem org_settles (db : DB) (r : Row) :
    orgSettled r (_insert_organism db r).1 = true := by
  unfold _insert_organism orgSettled
  rcases hs : sGet r.scientific_name with _ | sci
  · simp
  · dsimp only
    split
    · simp_all
    · simp [hasOrg, List.any_append]

theorem obs_noins {db : DB} {r : Row} (h : obsSettled r db = true) :
    (_insert_observer db r).1 = db := by
  unfold _insert_observer
  unfold obsSettled at h
  rcases hs : sGet r.recorded_by with _ | v
  · rfl
  · rw [hs] at h
    simp only [Option.elim_some] at h
    simp [h]

theorem obs_delta (db : DB) (r : Row) :
    ∃ l n, (_insert_observer db r).1 =
      { db with observer := db.observer ++ l, observerNext := n } := by
  unfold _insert_observer
  rcases hs : sGet r.recorded_by with _ | v
  · exact ⟨[], db.observerNext, by simp⟩
  · dsimp only
    split
    · exact ⟨[], db.observerNext, by simp⟩
    · exact ⟨_, _, rfl⟩

theorem obs_settles (db : DB) (r : Row) :
    obsSettled r (_insert_observer db r).1 = true := by
  unfold _insert_observer obsSettled
  rcases hs : sGet r.recorded_by with _ | v
  · simp
  · dsimp only
    split
    · simp_all
    · simp [hasObs, List.any_append]

theorem loc_noins {db : DB} {r : Row} (h : locSettled r db = true) :
    (_insert_location db r).1 = db := by
  unfold _insert_location
  unfold locSettled at h
  simp [h]

theorem loc_delta (db : DB) (r : Row) :
    ∃ l n, (_insert_location db r).1 =
      { db with location := db.location ++ l, locationNext := n } := by
  unfold _insert_location
  dsimp only
  split
  · exact ⟨[], db.locationNext, by simp⟩
  · exact ⟨_, _, rfl⟩

theorem loc_settles (db : DB) (r : Row)
    (h1 : (sGet r.higher_geography).isSome = true)
    (h2 : (sGet r.water_body).isSome = true)
    (h3 : (sGet r.locality).isSome = true)
    (h4 : (sGet r.verbatim_locality).isSome = true) :
    locSettled r (_insert_location db r).1 = true := by
  unfold _insert_location locSettled
  dsimp only
  split
  · assumption
  · rcases Option.isSome_iff_exists.1 h1 with ⟨a1, e1⟩
    rcases Option.isSome_iff_exists.1 h2 with ⟨a2, e2⟩
    rcases Option.isSome_iff_exists.1 h3 with ⟨a3, e3⟩
    rcases Option.isSome_iff_exists.1 h4 with ⟨a4, e4⟩
    simp [locConflict, List.any_append, locMatch, e1, e2, e3, e4, sqlEq]

theorem ev_err {r : Row} (db : DB) (h : evBindOk r = false) :
    _insert_event db r = .error db := by
  unfold _insert_event
  unfold evBindOk at h
  rw [nGet_eq_none (by simpa using h)]

theorem ev_ok (r : Row) (db : DB) (h : evBindOk r = true) :
    ∃ p, _insert_event db r = .ok p ∧ p.2 = r.evIdStr ∧
      ∃ l, p.1 = { db with event := db.event ++ l } := by
  unfold _insert_event
  unfold evBindOk at h
  rw [nGet_eq_some (by simpa using h)]
  dsimp only
  split
  · exact ⟨(db, r.evIdStr), rfl, rfl, [], by simp⟩
  · exact ⟨_, rfl, rfl, _, rfl⟩

theorem ev_noins {db : DB} {r : Row} (hb : evBindOk r = true)
    (h : hasEvent db r.evIdStr = true) :
    _insert_event db r = .ok (db, r.evIdStr) := by
  unfold _insert_event
  unfold evBindOk at hb
  rw [nGet_eq_some (by simpa using hb)]
  simp [h]

theorem ev_settles {db : DB} {r : Row} {p : DB × String}
    (h : _insert_event db r = .ok p) : evSettled r p.1 = true := by
  unfold _insert_event at h
  unfold evSettled
  rcases hn : nGet r.individual_count with _ | cnt
  · rw [hn] at h; exact absurd h (by simp)
  · rw [hn] at h
    dsimp only at h
    split at h
    · cases h
      simp_all [hasEvent]
    · cases h
      simp [hasEvent, List.any_append]

theorem med_noins {db : DB} {r : Row} (h : medSettled r db = true) :
    (_insert_media db r).1 = db := by
  unfold _insert_media
  unfold medSettled at h
  simp [h]

theorem med_delta (db : DB) (r : Row) :
    ∃ l n, (_insert_media db r).1 =
      { db with media := db.media ++ l, mediaNext := n } := by
  unfold _insert_media
  dsimp only
  split
  · exact ⟨[], db.mediaNext, by simp⟩
  · exact ⟨_, _, rfl⟩

theorem med_settles (db : DB) (r : Row)
    (h1 : (sGet r.external_resource).isSome = true)
    (h2 : (sGet r.catalog_number).isSome = true) :
    medSettled r (_insert_media db r).1 = true := by
  unfold _insert_media medSettled
  dsimp only
  split
  · assumption
  · rcases Option.isSome_iff_exists.1 h1 with ⟨a1, e1⟩
    rcases Option.isSome_iff_exists.1 h2 with ⟨a2, e2⟩
    simp [medConflict, List.any_append, medMatch, e1, e2, sqlEq]

theorem dm_eq (db : DB) (r : Row) :
    _insert_dataset_metadata db r =
      ({ db with
          datasetMetadata := db.datasetMetadata ++
            [⟨db.dmNext, sGet r.oid, sGet r.type, sGet r.modified, sGet r.language⟩],
          dmNext := db.dmNext + 1 },
       db.dmNext) := rfl

theorem rec_err {r : Row} (db : DB) (a : String) (b : Option Nat)
    (c : Option Nat) (d : String) (e : Option Nat) (f : Nat)
    (h : recBindOk r = false) :
    _insert_record db r a b c d e f = .error db := by
  unfold _insert_record
  unfold recBindOk at h
  rcases h1 : nGet r.decimal_latitude with _ | lat
  · rfl
  rcases h2 : nGet r.decimal_longitude with _ | lon
  · rfl
  rcases h3 : nGet r.coordinate_precision with _ | cp
  · rfl
  exfalso
  simp only [Bool.and_eq_false_imp, Bool.and_eq_false_iff, Bool.not_eq_false] at h
  rcases hc : r.decimal_latitude.getD (.num 0) with _ | q
  all_goals rcases hd : r.decimal_longitude.getD (.num 0) with _ | q2
  all_goals rcases he : r.coordinate_precision.getD (.num 0) with _ | q3
  all_goals simp_all [nGet, NumVal.bindSql]

theorem rec_ok {r : Row} (db : DB) (a : String) (b : Option Nat)
    (c : Option Nat) (d : String) (e : Option Nat) (f : Nat)
    (h : recBindOk r = true) :
    _insert_record db r a b c d e f =
      .ok { db with record := keepOther db.record (sGet r.occurrence_id) ++
        [⟨sGet r.occurrence_id, ratGet r.decimal_latitude,
          ratGet r.decimal_longitude, sGet r.event_date, sGet r.event_time,
          ratGet r.coordinate_precision, sGet r.geodetic_datum,
          d, a, b, c, e, f⟩] } := by
  unfold _insert_record
  unfold recBindOk at h
  simp only [Bool.and_eq_true] at h
  rw [nGet_eq_some (by simpa using h.1.1), nGet_eq_some (by simpa using h.1.2),
    nGet_eq_some (by simpa using h.2)]

/-- Master decomposition of one pipeline iteration: the first three
resolvers always run; then either `_insert_event` raises and the iteration
ends there, or media and dataset-metadata run and the fact write either
raises or upserts. -/
theorem processOne_factor (db : DB) (r : Row) :
    ∃ d3, d3 = (_insert_location ((_insert_observer ((_insert_organism db r).1) r).1) r).1 ∧
      ((evBindOk r = false ∧ processOne db r = d3) ∨
       (∃ eid d4, evBindOk r = true ∧ _insert_event d3 r = .ok (d4, eid) ∧
         ∃ d6, d6 = (_insert_dataset_metadata ((_insert_media d4 r).1) r).1 ∧
           ((recBindOk r = false ∧ processOne db r = d6) ∨
            (∃ rr, recBindOk r = true ∧
              processOne db r =
                { d6 with record := keepOther d6.record (sGet r.occurrence_id) ++ [rr] } ∧
              rr.occurrence_id = sGet r.occurrence_id ∧
              rr.decimal_latitude = ratGet r.decimal_latitude ∧
              rr.decimal_longitude = ratGet r.decimal_longitude ∧
              rr.event_date = sGet r.event_date ∧
              rr.event_time = sGet r.event_time ∧
              rr.coordinate_precision = ratGet r.coordinate_precision ∧
              rr.geodetic_datum = sGet r.geodetic_datum)))) := by
  refine ⟨_, rfl, ?_⟩
  cases hb : evBindOk r with
  | false =>
    left
    refine ⟨rfl, ?_⟩
    unfold processOne _process_csv_row
    dsimp only
    rw [ev_err _ hb]
  | true =>
    right
    obtain ⟨p, hev, -, -⟩ := ev_ok r _ hb
    refine ⟨p.2, p.1, rfl, by rw [hev], _, rfl, ?_⟩
    cases hrb : recBindOk r with
    | false =>
      left
      refine ⟨rfl, ?_⟩
      unfold processOne _process_csv_row
      dsimp only
      rw [hev]
      dsimp only
      rw [rec_err _ _ _ _ _ _ _ hrb]
    | true =>
      right
      refine ⟨⟨sGet r.occurrence_id, ratGet r.decimal_latitude,
        ratGet r.decimal_longitude, sGet r.event_date, sGet r.event_time,
        ratGet r.coordinate_precision, sGet r.geodetic_datum,
        p.2, (_insert_organism db r).2,
        (_insert_observer (_insert_organism db r).1 r).2,
        (_insert_location ((_insert_observer ((_insert_organism db r).1) r).1) r).2,
        (_insert_media p.1 r).2,
        (_insert_dataset_metadata ((_insert_media p.1 r).1) r).2⟩,
        rfl, ?_, rfl, rfl, rfl, rfl, rfl, rfl, rfl⟩
      unfold processOne _process_csv_row
      dsimp only
      rw [hev]
      dsimp only
      rw [rec_ok _ _ _ _ _ _ _ hrb]

/-! ## Growth and monotonicity of the entity tables -/

theorem entExt_refl (db : DB) : entExt db db :=
  ⟨⟨[], by simp⟩, ⟨[], by simp⟩, ⟨[], by simp⟩, ⟨[], by simp⟩, ⟨[], by simp⟩⟩

theorem entExt_trans {a b c : DB} (h1 : entExt a b) (h2 : entExt b c) :
    entExt a c := by
  obtain ⟨⟨l1, e1⟩, ⟨l2, e2⟩, ⟨l3, e3⟩, ⟨l4, e4⟩, ⟨l5, e5⟩⟩ := h1
  obtain ⟨⟨m1, f1⟩, ⟨m2, f2⟩, ⟨m3, f3⟩, ⟨m4, f4⟩, ⟨m5, f5⟩⟩ := h2
  exact ⟨⟨l1 ++ m1, by rw [f1, e1, List.append_assoc]⟩,
    ⟨l2 ++ m2, by rw [f2, e2, List.append_assoc]⟩,
    ⟨l3 ++ m3, by rw [f3, e3, List.append_assoc]⟩,
    ⟨l4 ++ m4, by rw [f4, e4, List.append_assoc]⟩,
    ⟨l5 ++ m5, by rw [f5, e5, List.append_assoc]⟩⟩

theorem org_ext (db : DB) (r : Row) : entExt db (_insert_organism db r).1 := by
  obtain ⟨l, h⟩ := org_delta db r
  rw [h]
  exact ⟨⟨l, rfl⟩, ⟨[], by simp⟩, ⟨[], by simp⟩, ⟨[], by simp⟩, ⟨[], by simp⟩⟩

theorem obs_ext (db : DB) (r : Row) : entExt db (_insert_observer db r).1 := by
  obtain ⟨l, n, h⟩ := obs_delta db r
  rw [h]
  exact ⟨⟨[], by simp⟩, ⟨l, rfl⟩, ⟨[], by simp⟩, ⟨[], by simp⟩, ⟨[], by simp⟩⟩

theorem loc_ext (db : DB) (r : Row) : entExt db (_insert_location db r).1 := by
  obtain ⟨l, n, h⟩ := loc_delta db r
  rw [h]
  exact ⟨⟨[], by simp⟩, ⟨[], by simp⟩, ⟨l, rfl⟩, ⟨[], by simp⟩, ⟨[], by simp⟩⟩

theorem ev_ok_shape {db : DB} {r : Row} {p : DB × String}
    (h : _insert_event db r = .ok p) :
    ∃ l, p.1 = { db with event := db.event ++ l } := by
  unfold _insert_event at h
  rcases hn : nGet r.individual_count with _ | cnt
  · rw [hn] at h; exact absurd h (by simp)
  · rw [hn] at h
    dsimp only at h
    split at h
    · cases h
      exact ⟨[], by simp⟩
    · cases h
      exact ⟨_, rfl⟩

theorem ev_ext {db : DB} {r : Row} {p : DB × String}
    (h : _insert_event db r = .ok p) : entExt db p.1 := by
  obtain ⟨l, hl⟩ := ev_ok_shape h
  rw [hl]
  exact ⟨⟨[], by simp⟩, ⟨[], by simp⟩, ⟨[], by simp⟩, ⟨l, rfl⟩, ⟨[], by simp⟩⟩

theorem med_ext (db : DB) (r : Row) : entExt db (_insert_media db r).1 := by
  obtain ⟨l, n, h⟩ := med_delta db r
  rw [h]
  exact ⟨⟨[], by simp⟩, ⟨[], by simp⟩, ⟨[], by simp⟩, ⟨[], by simp⟩, ⟨l, rfl⟩⟩

theorem dm_ext (db : DB) (r : Row) :
    entExt db (_insert_dataset_metadata db r).1 :=
  ⟨⟨[], by simp [_insert_dataset_metadata]⟩, ⟨[], by simp [_insert_dataset_metadata]⟩,
    ⟨[], by simp [_insert_dataset_metadata]⟩, ⟨[], by simp [_insert_dataset_metadata]⟩,
    ⟨[], by simp [_insert_dataset_metadata]⟩⟩

theorem entExt_record_update (db : DB) (l : List RecordRow) :
    entExt db { db with record := l } :=
  ⟨⟨[], by simp⟩, ⟨[], by simp⟩, ⟨[], by simp⟩, ⟨[], by simp⟩, ⟨[], by simp⟩⟩

theorem processOne_ext (db : DB) (r : Row) : entExt db (processOne db r) := by
  obtain ⟨d3, hd3, hc⟩ := processOne_factor db r
  have e3 : entExt db d3 := by
    rw [hd3]
    exact entExt_trans (entExt_trans (org_ext db r) (obs_ext _ r)) (loc_ext _ r)
  rcases hc with ⟨-, hpo⟩ | ⟨eid, d4, -, hev, d6, hd6, hc2⟩
  · rw [hpo]; exact e3
  · have e4 : entExt db d4 := entExt_trans e3 (ev_ext hev)
    have e6 : entExt db d6 := by
      rw [hd6]
      exact entExt_trans (entExt_trans e4 (med_ext _ r)) (dm_ext _ r)
    rcases hc2 with ⟨-, hpo⟩ | ⟨rr, -, hpo, -⟩
    · rw [hpo]; exact e6
    · rw [hpo]; exact entExt_trans e6 (entExt_record_update _ _)

/-! ## Frame facts: which tables the stages leave alone -/

theorem org_frame (db : DB) (r : Row) :
    (_insert_organism db r).1.datasetMetadata = db.datasetMetadata ∧
      (_insert_organism db r).1.record = db.record := by
  obtain ⟨l, h⟩ := org_delta db r
  rw [h]
  exact ⟨rfl, rfl⟩

theorem obs_frame (db : DB) (r : Row) :
    (_insert_observer db r).1.datasetMetadata = db.datasetMetadata ∧
      (_insert_observer db r).1.record = db.record := by
  obtain ⟨l, n, h⟩ := obs_delta db r
  rw [h]
  exact ⟨rfl, rfl⟩

theorem loc_frame (db : DB) (r : Row) :
    (_insert_location db r).1.datasetMetadata = db.datasetMetadata ∧
      (_insert_location db r).1.record = db.record := by
  obtain ⟨l, n, h⟩ := loc_delta db r
  rw [h]
  exact ⟨rfl, rfl⟩

theorem ev_frame {db : DB} {r : Row} {p : DB × String}
    (h : _insert_event db r = .ok p) :
    p.1.datasetMetadata = db.datasetMetadata ∧ p.1.record = db.record := by
  obtain ⟨l, hl⟩ := ev_ok_shape h
  rw [hl]
  exact ⟨rfl, rfl⟩

theorem med_frame (db : DB) (r : Row) :
    (_insert_media db r).1.datasetMetadata = db.datasetMetadata ∧
      (_insert_media db r).1.record = db.record := by
  obtain ⟨l, n, h⟩ := med_delta db r
  rw [h]
  exact ⟨rfl, rfl⟩

theorem processOne_dm_len (db : DB) (r : Row) :
    (processOne db r).datasetMetadata.length =
      db.datasetMetadata.length + (if evBindOk r = true then 1 else 0) := by
  obtain ⟨d3, hd3, hc⟩ := processOne_factor db r
  have hdm3 : d3.datasetMetadata = db.datasetMetadata := by
    rw [hd3, (loc_frame _ r).1, (obs_frame _ r).1, (org_frame _ r).1]
  rcases hc with ⟨hb, hpo⟩ | ⟨eid, d4, hb, hev, d6, hd6, hc2⟩
  · rw [hpo, hdm3, hb]
    simp
  · have hdm6 : d6.datasetMetadata.length = db.datasetMetadata.length + 1 := by
      rw [hd6]
      have : (_insert_dataset_metadata ((_insert_media d4 r).1) r).1.datasetMetadata =
          (_insert_media d4 r).1.datasetMetadata ++
            [⟨(_insert_media d4 r).1.dmNext, sGet r.oid, sGet r.type,
              sGet r.modified, sGet r.language⟩] := rfl
      rw [this, (med_frame _ r).1, (ev_frame hev).1, hdm3]
      simp
    rcases hc2 with ⟨-, hpo⟩ | ⟨rr, -, hpo, -⟩
    · rw [hpo, hb, hdm6]; simp
    · rw [hpo]
      have : ({ d6 with record := keepOther d6.record (sGet r.occurrence_id) ++ [rr] } :
          DB).datasetMetadata = d6.datasetMetadata := rfl
      rw [this, hb, hdm6]; simp

/-! ## Settledness: establishment and monotonicity -/

theorem hasOrg_mono {db db' : DB} {k : String} (h : hasOrg db k = true)
    (he : entExt db db') : hasOrg db' k = true := by
  obtain ⟨l, hl⟩ := he.1
  unfold hasOrg at h ⊢
  rw [hl]
  exact any_mono l h

theorem hasObs_mono {db db' : DB} {v : String} (h : hasObs db v = true)
    (he : entExt db db') : hasObs db' v = true := by
  obtain ⟨l, hl⟩ := he.2.1
  unfold hasObs at h ⊢
  rw [hl]
  exact any_mono l h

theorem locConflict_mono {db db' : DB} {hg wb lc vl : Option String}
    (h : locConflict db hg wb lc vl = true) (he : entExt db db') :
    locConflict db' hg wb lc vl = true := by
  obtain ⟨l, hl⟩ := he.2.2.1
  unfold locConflict at h ⊢
  rw [hl]
  exact any_mono l h

theorem hasEvent_mono {db db' : DB} {k : String} (h : hasEvent db k = true)
    (he : entExt db db') : hasEvent db' k = true := by
  obtain ⟨l, hl⟩ := he.2.2.2.1
  unfold hasEvent at h ⊢
  rw [hl]
  exact any_mono l h

theorem medConflict_mono {db db' : DB} {er cn : Option String}
    (h : medConflict db er cn = true) (he : entExt db db') :
    medConflict db' er cn = true := by
  obtain ⟨l, hl⟩ := he.2.2.2.2
  unfold medConflict at h ⊢
  rw [hl]
  exact any_mono l h

theorem orgSettled_mono {r : Row} {db db' : DB} (h : orgSettled r db = true)
    (he : entExt db db') : orgSettled r db' = true := by
  unfold orgSettled at h ⊢
  simp only [Bool.or_eq_true] at h ⊢
  rcases h with h | h
  · exact Or.inl h
  · exact Or.inr (hasOrg_mono h he)

theorem obsSettled_mono {r : Row} {db db' : DB} (h : obsSettled r db = true)
    (he : entExt db db') : obsSettled r db' = true := by
  unfold obsSettled at h ⊢
  rcases hs : sGet r.recorded_by with _ | v
  · simp
  · rw [hs] at h
    simp only [Option.elim_some] at h ⊢
    exact hasObs_mono h he

theorem locSettled_mono {r : Row} {db db' : DB} (h : locSettled r db = true)
    (he : entExt db db') : locSettled r db' = true :=
  locConflict_mono h he

theorem evSettled_mono {r : Row} {db db' : DB} (h : evSettled r db = true)
    (he : entExt db db') : evSettled r db' = true := by
  unfold evSettled at h ⊢
  simp only [Bool.or_eq_true] at h ⊢
  rcases h with h | h
  · exact Or.inl h
  · exact Or.inr (hasEvent_mono h he)

theorem medSettled_mono {r : Row} {db db' : DB} (h : medSettled r db = true)
    (he : entExt db db') : medSettled r db' = true :=
  medConflict_mono h he

theorem settled_mono {r : Row} {db db' : DB} (h : settled r db = true)
    (he : entExt db db') : settled r db' = true := by
  unfold settled at h ⊢
  simp only [Bool.and_eq_true, Bool.or_eq_true] at h ⊢
  obtain ⟨⟨⟨⟨h1, h2⟩, h3⟩, h4⟩, h5⟩ := h
  refine ⟨⟨⟨⟨orgSettled_mono h1 he, obsSettled_mono h2 he⟩,
    locSettled_mono h3 he⟩, evSettled_mono h4 he⟩, ?_⟩
  rcases h5 with h5 | h5
  · exact Or.inl h5
  · exact Or.inr (medSettled_mono h5 he)

theorem processOne_settles (db : DB) (r : Row) (hk : goodKeys r = true) :
    settled r (processOne db r) = true := by
  unfold goodKeys at hk
  simp only [Bool.and_eq_true] at hk
  obtain ⟨⟨⟨⟨⟨k1, k2⟩, k3⟩, k4⟩, k5⟩, k6⟩ := hk
  obtain ⟨d3, hd3, hc⟩ := processOne_factor db r
  have hso : orgSettled r d3 := by
    rw [hd3]
    exact orgSettled_mono (org_settles db r)
      (entExt_trans (obs_ext _ r) (loc_ext _ r))
  have hsb : obsSettled r d3 := by
    rw [hd3]
    exact obsSettled_mono (obs_settles _ r) (loc_ext _ r)
  have hsl : locSettled r d3 := by
    rw [hd3]
    exact loc_settles _ r k1 k2 k3 k4
  rcases hc with ⟨hb, hpo⟩ | ⟨eid, d4, hb, hev, d6, hd6, hc2⟩
  · rw [hpo]
    unfold settled
    simp [hso, hsb, hsl, evSettled, hb]
  · have e46 : entExt d4 d6 := by
      rw [hd6]
      exact entExt_trans (med_ext _ r) (dm_ext _ r)
    have e36 : entExt d3 d6 := entExt_trans (ev_ext hev) e46
    have hse : evSettled r d6 :=
      evSettled_mono (ev_settles hev) e46
    have hsm : medSettled r d6 := by
      have h5 : medSettled r (_insert_media d4 r).1 := med_settles d4 r k5 k6
      have : entExt (_insert_media d4 r).1 d6 := by
        rw [hd6]; exact dm_ext _ r
      exact medSettled_mono h5 this
    have final : settled r d6 = true := by
      unfold settled
      simp [orgSettled_mono hso e36, obsSettled_mono hsb e36,
        locSettled_mono hsl e36, hse, hsm]
    rcases hc2 with ⟨-, hpo⟩ | ⟨rr, -, hpo, -⟩
    · rw [hpo]; exact final
    · rw [hpo]
      exact final

/-- Re-processing a settled row leaves every entity table exactly as it
was. -/
theorem processOne_noop (db : DB) (r : Row)
    (hs : settled r db = true) :
    (processOne db r).organism = db.organism ∧
      (processOne db r).observer = db.observer ∧
      (processOne db r).location = db.location ∧
      (processOne db r).event = db.event ∧
      (processOne db r).media = db.media := by
  unfold settled at hs
  simp only [Bool.and_eq_true] at hs
  obtain ⟨⟨⟨⟨h1, h2⟩, h3⟩, h4⟩, h5⟩ := hs
  unfold processOne _process_csv_row
  dsimp only
  rw [org_noins h1]
  dsimp only
  rw [obs_noins h2]
  rw [loc_noins h3]
  cases hb : evBindOk r with
  | false =>
    rw [ev_err db hb]
    exact ⟨rfl, rfl, rfl, rfl, rfl⟩
  | true =>
    have hEv : hasEvent db r.evIdStr = true := by
      unfold evSettled at h4
      simpa [hb] using h4
    have hMed : medSettled r db = true := by
      simpa [hb] using h5
    rw [ev_noins hb hEv]
    dsimp only
    rw [med_noins hMed]
    cases hrb : recBindOk r with
    | false =>
      rw [rec_err _ _ _ _ _ _ _ hrb]
      exact ⟨rfl, rfl, rfl, rfl, rfl⟩
    | true =>
      rw [rec_ok _ _ _ _ _ _ _ hrb]
      exact ⟨rfl, rfl, rfl, rfl, rfl⟩

/-- `settled` reads only the five entity tables. -/
theorem settled_congr {r : Row} {db db' : DB}
    (h1 : db'.organism = db.organism) (h2 : db'.observer = db.observer)
    (h3 : db'.location = db.location) (h4 : db'.event = db.event)
    (h5 : db'.media = db.media) : settled r db' = settled r db := by
  unfold settled orgSettled obsSettled locSettled evSettled medSettled
    hasOrg hasObs locConflict hasEvent medConflict
  rw [h1, h2, h3, h4, h5]

/-! ## Batch-level lemmas -/

theorem foldl_ext (B : List Row) (db : DB) :
    entExt db (B.foldl processOne db) := by
  induction B generalizing db with
  | nil => exact entExt_refl db
  | cons a t ih =>
    simp only [List.foldl_cons]
    exact entExt_trans (processOne_ext db a) (ih (processOne db a))

theorem foldl_settles (B : List Row) (db : DB)
    (hk : ∀ r ∈ B, goodKeys r = true) :
    ∀ r ∈ B, settled r (B.foldl processOne db) = true := by
  induction B generalizing db with
  | nil => intro r hr; cases hr
  | cons a t ih =>
    intro r hr
    simp only [List.foldl_cons]
    rcases List.mem_cons.mp hr with rfl | hr'
    · have h1 := processOne_settles db r (hk r (List.mem_cons_self r t))
      exact settled_mono h1 (foldl_ext t (processOne db r))
    · exact ih (processOne db a) (fun s hs => hk s (List.mem_cons_of_mem _ hs)) r hr'

theorem foldl_noop (B : List Row) (db : DB)
    (hs : ∀ r ∈ B, settled r db = true) :
    (B.foldl processOne db).organism = db.organism ∧
      (B.foldl processOne db).observer = db.observer ∧
      (B.foldl processOne db).location = db.location ∧
      (B.foldl processOne db).event = db.event ∧
      (B.foldl processOne db).media = db.media := by
  induction B generalizing db with
  | nil => exact ⟨rfl, rfl, rfl, rfl, rfl⟩
  | cons a t ih =>
    simp only [List.foldl_cons]
    obtain ⟨e1, e2, e3, e4, e5⟩ :=
      processOne_noop db a (hs a (List.mem_cons_self a t))
    have hs' : ∀ r ∈ t, settled r (processOne db a) = true := by
      intro s hsm
      rw [settled_congr e1 e2 e3 e4 e5]
      exact hs s (List.mem_cons_of_mem _ hsm)
    obtain ⟨f1, f2, f3, f4, f5⟩ := ih (processOne db a) hs'
    exact ⟨f1.trans e1, f2.trans e2, f3.trans e3, f4.trans e4, f5.trans e5⟩

theorem foldl_dm (B : List Row) (db : DB) :
    (B.foldl processOne db).datasetMetadata.length =
      db.datasetMetadata.length + B.countP evBindOk := by
  induction B generalizing db with
  | nil => simp
  | cons a t ih =>
    simp only [List.foldl_cons, List.countP_cons]
    rw [ih (processOne db a), processOne_dm_len db a]
    cases hb : evBindOk a
    all_goals simp [hb]
    all_goals omega

/-! ## Record-table lemmas -/

theorem processOne_rec_bad {db : DB} {r : Row} (h : rowBindsOk r = false) :
    (processOne db r).record = db.record := by
  obtain ⟨d3, hd3, hc⟩ := processOne_factor db r
  have hr3 : d3.record = db.record := by
    rw [hd3, (loc_frame _ r).2, (obs_frame _ r).2, (org_frame _ r).2]
  unfold rowBindsOk at h
  rcases hc with ⟨hb, hpo⟩ | ⟨eid, d4, hb, hev, d6, hd6, hc2⟩
  · rw [hpo, hr3]
  · have hr6 : d6.record = db.record := by
      have : (_insert_dataset_metadata ((_insert_media d4 r).1) r).1.record =
          (_insert_media d4 r).1.record := rfl
      rw [hd6, this, (med_frame _ r).2, (ev_frame hev).2, hr3]
    rcases hc2 with ⟨-, hpo⟩ | ⟨rr, hrb, hpo, -⟩
    · rw [hpo, hr6]
    · rw [hb, hrb] at h
      simp at h

theorem processOne_rec_ok (db : DB) {r : Row} (h : rowBindsOk r = true) :
    ∃ rr, (processOne db r).record =
        keepOther db.record (sGet r.occurrence_id) ++ [rr] ∧
      rr.occurrence_id = sGet r.occurrence_id ∧
      rr.decimal_latitude = ratGet r.decimal_latitude ∧
      rr.decimal_longitude = ratGet r.decimal_longitude ∧
      rr.event_date = sGet r.event_date ∧
      rr.event_time = sGet r.event_time ∧
      rr.coordinate_precision = ratGet r.coordinate_precision ∧
      rr.geodetic_datum = sGet r.geodetic_datum := by
  unfold rowBindsOk at h
  simp only [Bool.and_eq_true] at h
  obtain ⟨d3, hd3, hc⟩ := processOne_factor db r
  have hr3 : d3.record = db.record := by
    rw [hd3, (loc_frame _ r).2, (obs_frame _ r).2, (org_frame _ r).2]
  rcases hc with ⟨hb, -⟩ | ⟨eid, d4, hb, hev, d6, hd6, hc2⟩
  · rw [h.1] at hb; cases hb
  · have hr6 : d6.record = db.record := by
      have : (_insert_dataset_metadata ((_insert_media d4 r).1) r).1.record =
          (_insert_media d4 r).1.record := rfl
      rw [hd6, this, (med_frame _ r).2, (ev_frame hev).2, hr3]
    rcases hc2 with ⟨hrb, -⟩ | ⟨rr, -, hpo, hf1, hf2, hf3, hf4, hf5, hf6, hf7⟩
    · rw [h.2] at hrb; cases hrb
    · refine ⟨rr, ?_, hf1, hf2, hf3, hf4, hf5, hf6, hf7⟩
      rw [hpo]
      have : ({ d6 with record := keepOther d6.record (sGet r.occurrence_id) ++ [rr] } :
          DB).record = keepOther d6.record (sGet r.occurrence_id) ++ [rr] := rfl
      rw [this, hr6]

theorem mem_keepOther {l : List RecordRow} {rr : RecordRow}
    (hm : rr ∈ l) (occ : Option String)
    (hne : occ ≠ rr.occurrence_id ∨ occ = none) : rr ∈ keepOther l occ := by
  unfold keepOther
  rcases occ with _ | x
  · exact hm
  · rcases hne with hne | hne
    · refine List.mem_filter.mpr ⟨hm, ?_⟩
      simp only [Bool.not_eq_true']
      rw [beq_eq_false_iff_ne]
      intro hEq
      exact hne (by rw [hEq])
    · cases hne

/-- A fact row with a given non-`NULL` `occurrence_id` survives any later
pipeline iteration (it can only be replaced by a row carrying the same
`occurrence_id`). -/
theorem processOne_rec_presence (r : Row) {db : DB} {x : String}
    (h : ∃ rr ∈ db.record, rr.occurrence_id = some x) :
    ∃ rr ∈ (processOne db r).record, rr.occurrence_id = some x := by
  obtain ⟨rr0, hmem, hocc⟩ := h
  cases hbind : rowBindsOk r with
  | false =>
    rw [processOne_rec_bad hbind]
    exact ⟨rr0, hmem, hocc⟩
  | true =>
    obtain ⟨rr, hrec, hoccr, -⟩ := processOne_rec_ok db hbind
    rw [hrec]
    by_cases hx : sGet r.occurrence_id = some x
    · exact ⟨rr, List.mem_append_right _ (List.mem_singleton.mpr rfl),
        hoccr.trans hx⟩
    · refine ⟨rr0, List.mem_append_left _ ?_, hocc⟩
      exact mem_keepOther hmem _ (Or.inl (by rw [hocc]; exact fun hEq => hx hEq))

theorem sqlEq_none_right (a : Option String) : sqlEq a none = false := by
  cases a <;> rfl

theorem sGet_nan {c : Option PyStr} (h : c = some .nan) : sGet c = none := by
  rw [h]; rfl

/-- The `Location` key match fails against every stored row as soon as any
one of the four key parameters is `NULL`. -/
theorem locMatch_none {l : LocationRow} {hg wb lc vl : Option String}
    (h : hg = none ∨ wb = none ∨ lc = none ∨ vl = none) :
    locMatch l hg wb lc vl = false := by
  rcases h with h | h | h | h <;>
    (rw [h]; simp [locMatch, sqlEq_none_right])

/-- The `Media` key match fails against every stored row as soon as either
key parameter is `NULL`. -/
theorem medMatch_none {m : MediaRow} {er cn : Option String}
    (h : er = none ∨ cn = none) : medMatch m er cn = false := by
  rcases h with h | h <;> (rw [h]; simp [medMatch, sqlEq_none_right])

/-- `_insert_location`'s identifier lookup returns `None` whenever any of
the four natural-key values is `NULL`. -/
theorem loc_lookup_none (db : DB) {r : Row}
    (h : sGet r.higher_geography = none ∨ sGet r.water_body = none ∨
      sGet r.locality = none ∨ sGet r.verbatim_locality = none) :
    (_insert_location db r).2 = none := by
  unfold _insert_location
  dsimp only
  have hfind : ∀ L : List LocationRow,
      L.find? (fun l => locMatch l (sGet r.higher_geography)
        (sGet r.water_body) (sGet r.locality) (sGet r.verbatim_locality)) = none := by
    intro L
    refine List.find?_eq_none.mpr (fun a ha => ?_)
    simp [locMatch_none h]
  rw [hfind]
  rfl

/-- `_insert_media`'s identifier lookup returns `None` whenever either of
the two natural-key values is `NULL`. -/
theorem med_lookup_none (db : DB) {r : Row}
    (h : sGet r.external_resource = none ∨ sGet r.catalog_number = none) :
    (_insert_media db r).2 = none := by
  unfold _insert_media
  dsimp only
  have hfind : ∀ L : List MediaRow,
      L.find? (fun m => medMatch m (sGet r.external_resource)
        (sGet r.catalog_number)) = none := by
    intro L
    refine List.find?_eq_none.mpr (fun a ha => ?_)
    simp [medMatch_none h]
  rw [hfind]
  rfl

/-- A row with an unbindable value raises inside `_process_csv_row`. -/
theorem processRow_err {db : DB} {r : Row} (h : rowBindsOk r = false) :
    ∃ e, _process_csv_row db r = .error e := by
  unfold rowBindsOk at h
  cases hb : evBindOk r with
  | false =>
    unfold _process_csv_row
    dsimp only
    rw [ev_err _ hb]
    exact ⟨_, rfl⟩
  | true =>
    have hrb : recBindOk r = false := by simpa [hb] using h
    obtain ⟨p, hev, -, -⟩ := ev_ok r _ hb
    unfold _process_csv_row
    dsimp only
    rw [hev]
    dsimp only
    rw [rec_err _ _ _ _ _ _ _ hrb]
    exact ⟨_, rfl⟩

/-- A row whose values all bind runs `_process_csv_row` to completion. -/
theorem processRow_ok (db : DB) {r : Row} (h : rowBindsOk r = true) :
    ∃ db', _process_csv_row db r = .ok db' := by
  unfold rowBindsOk at h
  simp only [Bool.and_eq_true] at h
  obtain ⟨p, hev, -, -⟩ := ev_ok r _ h.1
  unfold _process_csv_row
  dsimp only
  rw [hev]
  dsimp only
  rw [rec_ok _ _ _ _ _ _ _ h.2]
  exact ⟨_, rfl⟩

theorem filter_not_of_any_false {α : Type _} {l : List α} {p : α → Bool}
    (h : l.any p = false) : l.filter (fun a => !(p a)) = l := by
  induction l with
  | nil => rfl
  | cons a t ih =>
    simp only [List.any_cons, Bool.or_eq_false_iff] at h
    simp [List.filter_cons, h.1, ih h.2]

theorem any_filter_not {α : Type _} (l : List α) (p : α → Bool) :
    (l.filter (fun a => !(p a))).any p = false := by
  induction l with
  | nil => rfl
  | cons a t ih => cases hp : p a <;> simp [List.filter_cons, hp, ih]

/-! ## Claims -/

/-- C1 (amended): for every batch whose rows carry no `NULL` (`NaN`) value
in the `Location` natural-key fields (`higher_geography`, `water_body`,
`locality`, `verbatim_locality`) or the `Media` natural-key fields
(`external_resource`, `catalog_number`), ingesting the batch twice from an
empty store leaves the row counts of the five deduplicated entity tables
(Organism, Observer, Location, Event, Media) exactly as after the first
ingestion, while the DatasetMetadata row count doubles.  (As stated over
*every* batch the claim is false: a `NaN` in a location or media key field
binds as SQL `NULL`, `NULL`s never collide in a `UNIQUE` index, so
re-ingestion duplicates such entity rows — see the counterexample.) -/
theorem c1_reingest_entity_counts (B : List Row)
    (hk : ∀ r ∈ B, goodKeys r = true) :
    (load_csv_data (load_csv_data emptyDB (some B)) (some B)).organism.length =
        (load_csv_data emptyDB (some B)).organism.length ∧
      (load_csv_data (load_csv_data emptyDB (some B)) (some B)).observer.length =
        (load_csv_data emptyDB (some B)).observer.length ∧
      (load_csv_data (load_csv_data emptyDB (some B)) (some B)).location.length =
        (load_csv_data emptyDB (some B)).location.length ∧
      (load_csv_data (load_csv_data emptyDB (some B)) (some B)).event.length =
        (load_csv_data emptyDB (some B)).event.length ∧
      (load_csv_data (load_csv_data emptyDB (some B)) (some B)).media.length =
        (load_csv_data emptyDB (some B)).media.length ∧
      (load_csv_data (load_csv_data emptyDB (some B)) (some B)).datasetMetadata.length =
        2 * (load_csv_data emptyDB (some B)).datasetMetadata.length := by
  have hset : ∀ r ∈ B, settled r (B.foldl processOne emptyDB) = true :=
    foldl_settles B emptyDB hk
  obtain ⟨e1, e2, e3, e4, e5⟩ := foldl_noop B (B.foldl processOne emptyDB) hset
  have hdm1 := foldl_dm B emptyDB
  have hdm2 := foldl_dm B (B.foldl processOne emptyDB)
  have hzero : emptyDB.datasetMetadata.length = 0 := rfl
  simp only [load_csv_data]
  refine ⟨by rw [e1], by rw [e2], by rw [e3], by rw [e4], by rw [e5], ?_⟩
  rw [hdm2, hdm1, hzero]
  omega

/-- Witness for C1 at the concrete two-row batch `batchB`. -/
theorem c1_reingest_entity_counts_witness :
    (∀ r ∈ batchB, goodKeys r = true) ∧
      ((load_csv_data (load_csv_data emptyDB (some batchB)) (some batchB)).organism.length =
          (load_csv_data emptyDB (some batchB)).organism.length ∧
        (load_csv_data (load_csv_data emptyDB (some batchB)) (some batchB)).observer.length =
          (load_csv_data emptyDB (some batchB)).observer.length ∧
        (load_csv_data (load_csv_data emptyDB (some batchB)) (some batchB)).location.length =
          (load_csv_data emptyDB (some batchB)).location.length ∧
        (load_csv_data (load_csv_data emptyDB (some batchB)) (some batchB)).event.length =
          (load_csv_data emptyDB (some batchB)).event.length ∧
        (load_csv_data (load_csv_data emptyDB (some batchB)) (some batchB)).media.length =
          (load_csv_data emptyDB (some batchB)).media.length ∧
        (load_csv_data (load_csv_data emptyDB (some batchB)) (some batchB)).datasetMetadata.length =
          2 * (load_csv_data emptyDB (some batchB)).datasetMetadata.length) :=
  ⟨by decide, c1_reingest_entity_counts batchB (by decide)⟩

/-- C1 counterexample: the claim as stated (over every batch) is false.
The one-row batch `rowNanLoc` has a `NaN` `locality`; ingesting it twice
yields two `Location` rows, not one. -/
theorem c1_counterexample_nan_location :
    ¬ ((load_csv_data (load_csv_data emptyDB (some [rowNanLoc])) (some [rowNanLoc])).location.length =
        (load_csv_data emptyDB (some [rowNanLoc])).location.length) := by
  decide

/-- C2: the fact write is an upsert keyed by `occurrence_id` with
full-replace semantics.  For every store state, ingesting a row with
occurrence id `x` and then a second row with the same id and latitude `q`
leaves exactly one fact row keyed `x`; its latitude is `q`, and a field
absent from the second row (here `event_time`) holds its default (the
empty string), not the first row's value. -/
theorem c2_upsert_replace (db : DB) (r1 r2 : Row) (x : String) (q : Rat)
    (_hb1 : rowBindsOk r1 = true) (hb2 : rowBindsOk r2 = true)
    (_h1 : sGet r1.occurrence_id = some x) (h2 : sGet r2.occurrence_id = some x)
    (hlat : r2.decimal_latitude = some (.num q)) (het : r2.event_time = none) :
    ∃ rr, (processOne (processOne db r1) r2).record.filter
        (fun s => s.occurrence_id == some x) = [rr] ∧
      rr.decimal_latitude = some q ∧ rr.event_time = some "" := by
  obtain ⟨rr, hrec, hocc, hlat', -, -, htime, -, -⟩ :=
    processOne_rec_ok (processOne db r1) hb2
  refine ⟨rr, ?_, ?_, ?_⟩
  · rw [hrec, List.filter_append]
    have hone : [rr].filter (fun s => s.occurrence_id == some x) = [rr] := by
      have : rr.occurrence_id = some x := hocc.trans h2
      simp [List.filter, this]
    have hnone : (keepOther (processOne db r1).record (sGet r2.occurrence_id)).filter
        (fun s => s.occurrence_id == some x) = [] := by
      rw [h2]
      unfold keepOther
      rw [List.filter_filter]
      have : ∀ s : RecordRow,
          ((s.occurrence_id == some x) && !(s.occurrence_id == some x)) = false := by
        intro s
        cases hsx : s.occurrence_id == some x <;> simp [hsx]
      simp only [this]
      exact List.filter_false _
    rw [hone, hnone]
    rfl
  · rw [hlat']
    unfold ratGet
    rw [hlat]
    rfl
  · rw [htime]
    unfold sGet
    rw [het]
    rfl

/-- Witness for C2: latitude 10 then latitude 20 on occurrence `"X"`. -/
theorem c2_upsert_replace_witness :
    ∃ rr, (processOne (processOne emptyDB rowX10) rowX20).record.filter
        (fun s => s.occurrence_id == some "X") = [rr] ∧
      rr.decimal_latitude = some 20 ∧ rr.event_time = some "" :=
  c2_upsert_replace emptyDB rowX10 rowX20 "X" 20 (by decide) (by decide)
    (by decide) (by decide) rfl rfl

/-- C3: per-row failure isolation.  In a batch of three rows whose second
row raises during normalization (an unbindable value), the second row's
exception is caught (`_process_csv_row` returns `.error`), and the batch
still commits fact rows for the first and third rows; no failure
propagates out of `load_csv_data` (which is total by construction). -/
theorem c3_row_isolation (db : DB) (r1 r2 r3 : Row) (x1 x3 : String)
    (hb1 : rowBindsOk r1 = true) (hb2 : rowBindsOk r2 = false)
    (hb3 : rowBindsOk r3 = true)
    (h1 : sGet r1.occurrence_id = some x1)
    (h3 : sGet r3.occurrence_id = some x3) :
    (∃ e, _process_csv_row (processOne db r1) r2 = .error e) ∧
      (∃ rr ∈ (load_csv_data db (some [r1, r2, r3])).record,
        rr.occurrence_id = some x1) ∧
      (∃ rr ∈ (load_csv_data db (some [r1, r2, r3])).record,
        rr.occurrence_id = some x3) := by
  have hS : load_csv_data db (some [r1, r2, r3]) =
      processOne (processOne (processOne db r1) r2) r3 := rfl
  have p1 : ∃ rr ∈ (processOne db r1).record, rr.occurrence_id = some x1 := by
    obtain ⟨rr, hrec, hocc, -⟩ := processOne_rec_ok db hb1
    exact ⟨rr, by rw [hrec]; exact List.mem_append_right _ (List.mem_singleton.mpr rfl),
      hocc.trans h1⟩
  have p2 := processOne_rec_presence r2 p1
  have p3 := processOne_rec_presence r3 p2
  have q3 : ∃ rr ∈ (processOne (processOne (processOne db r1) r2) r3).record,
      rr.occurrence_id = some x3 := by
    obtain ⟨rr, hrec, hocc, -⟩ :=
      processOne_rec_ok (processOne (processOne db r1) r2) hb3
    exact ⟨rr, by rw [hrec]; exact List.mem_append_right _ (List.mem_singleton.mpr rfl),
      hocc.trans h3⟩
  exact ⟨processRow_err hb2, by rw [hS]; exact p3, by rw [hS]; exact q3⟩

/-- Witness for C3: `rowRaises` (unbindable `individual_count`) between
`rowX10` and `rowY`. -/
theorem c3_row_isolation_witness :
    (∃ e, _process_csv_row (processOne emptyDB rowX10) rowRaises = .error e) ∧
      (∃ rr ∈ (load_csv_data emptyDB (some [rowX10, rowRaises, rowY])).record,
        rr.occurrence_id = some "X") ∧
      (∃ rr ∈ (load_csv_data emptyDB (some [rowX10, rowRaises, rowY])).record,
        rr.occurrence_id = some "Y") :=
  c3_row_isolation emptyDB rowX10 rowRaises rowY "X" "Y" (by decide) (by decide)
    (by decide) (by decide) (by decide)

/-- C6: for the entity types with a system-assigned identifier, the
resolver returns `None` whenever *any* required natural-key cell is the
missing value `NaN` — `recorded_by` for Observer; any of
`higher_geography`, `water_body`, `locality`, `verbatim_locality` for
Location; either of `external_resource`, `catalog_number` for Media.  The
`NaN` binds as SQL `NULL`, so the key-equality lookup cannot match.  This
is tolerated downstream: a row whose values all bind is processed to
completion regardless. -/
theorem c6_resolver_none_tolerated (db : DB) (r : Row) :
    (r.recorded_by = some .nan → (_insert_observer db r).2 = none) ∧
      ((r.higher_geography = some .nan ∨ r.water_body = some .nan ∨
          r.locality = some .nan ∨ r.verbatim_locality = some .nan) →
        (_insert_location db r).2 = none) ∧
      ((r.external_resource = some .nan ∨ r.catalog_number = some .nan) →
        (_insert_media db r).2 = none) ∧
      (rowBindsOk r = true → ∃ db', _process_csv_row db r = .ok db') := by
  refine ⟨?_, ?_, ?_, fun h => processRow_ok db h⟩
  · intro h
    have hsget : sGet r.recorded_by = none := sGet_nan h
    unfold _insert_observer
    rw [hsget]
  · intro h
    refine loc_lookup_none db ?_
    rcases h with h | h | h | h
    · exact Or.inl (sGet_nan h)
    · exact Or.inr (Or.inl (sGet_nan h))
    · exact Or.inr (Or.inr (Or.inl (sGet_nan h)))
    · exact Or.inr (Or.inr (Or.inr (sGet_nan h)))
  · intro h
    rcases h with h | h
    · exact med_lookup_none db (Or.inl (sGet_nan h))
    · exact med_lookup_none db (Or.inr (sGet_nan h))

/-- Witness for C6, exercising every natural-key field: `rowNanKeys` has
NaN `recorded_by`, `locality` and `external_resource`; `rowNanKeys2` NaN
`higher_geography` and `catalog_number`; `rowNanKeys3` NaN `water_body`;
`rowNanKeys4` NaN `verbatim_locality`. -/
theorem c6_resolver_none_tolerated_witness :
    (_insert_observer emptyDB rowNanKeys).2 = none ∧
      (_insert_location emptyDB rowNanKeys).2 = none ∧
      (_insert_location emptyDB rowNanKeys2).2 = none ∧
      (_insert_location emptyDB rowNanKeys3).2 = none ∧
      (_insert_location emptyDB rowNanKeys4).2 = none ∧
      (_insert_media emptyDB rowNanKeys).2 = none ∧
      (_insert_media emptyDB rowNanKeys2).2 = none ∧
      ∃ db', _process_csv_row emptyDB rowNanKeys = .ok db' :=
  ⟨(c6_resolver_none_tolerated emptyDB rowNanKeys).1 (by decide),
    (c6_resolver_none_tolerated emptyDB rowNanKeys).2.1
      (Or.inr (Or.inr (Or.inl (by decide)))),
    (c6_resolver_none_tolerated emptyDB rowNanKeys2).2.1 (Or.inl (by decide)),
    (c6_resolver_none_tolerated emptyDB rowNanKeys3).2.1
      (Or.inr (Or.inl (by decide))),
    (c6_resolver_none_tolerated emptyDB rowNanKeys4).2.1
      (Or.inr (Or.inr (Or.inr (by decide)))),
    (c6_resolver_none_tolerated emptyDB rowNanKeys).2.2.1 (Or.inl (by decide)),
    (c6_resolver_none_tolerated emptyDB rowNanKeys2).2.2.1 (Or.inr (by decide)),
    (c6_resolver_none_tolerated emptyDB rowNanKeys).2.2.2 (by decide)⟩

/-- C7: `update_record` only ever changes the fact row's own six scalar
columns: the six entity tables are untouched, and the key and the six
foreign-key columns of every fact row are unchanged; when the
`occurrence_id` does not exist or no recognized field is supplied it
returns `false` with the store unchanged (so an update supplying only
`scientific_name` — i.e. none of the six recognized fields — is a no-op
returning `false`, and the stored species is untouched because the
Organism table is untouched). -/
theorem c7_update_scope (db : DB) (occ : String) (u : UpdateData) :
    ((update_record db occ u).1.organism = db.organism ∧
      (update_record db occ u).1.observer = db.observer ∧
      (update_record db occ u).1.location = db.location ∧
      (update_record db occ u).1.event = db.event ∧
      (update_record db occ u).1.media = db.media ∧
      (update_record db occ u).1.datasetMetadata = db.datasetMetadata) ∧
    ((update_record db occ u).1.record.map fkKey = db.record.map fkKey) ∧
    ((db.record.any (fun rr => rr.occurrence_id == some occ) = false ∨
        anySupplied u = false) →
      update_record db occ u = (db, false)) := by
  unfold update_record
  split
  · split
    · split
      · next h1 h2 h3 =>
        refine ⟨⟨rfl, rfl, rfl, rfl, rfl, rfl⟩, ?_, fun hor => ?_⟩
        · show (db.record.map fun rr =>
              if rr.occurrence_id == some occ then applyUpd u rr else rr).map fkKey =
            db.record.map fkKey
          rw [List.map_map]
          refine List.map_congr_left (fun a _ => ?_)
          cases ha : a.occurrence_id == some occ
          all_goals simp only [Function.comp_apply, ha, if_true, if_false,
            Bool.false_eq_true, ite_false, ite_true]
          all_goals rfl
        · rcases hor with hor | hor
          · rw [h1] at hor; exact Bool.noConfusion hor
          · rw [h2] at hor; exact Bool.noConfusion hor
      · next h1 h2 h3 =>
        exact ⟨⟨rfl, rfl, rfl, rfl, rfl, rfl⟩, rfl, fun _ => rfl⟩
    · exact ⟨⟨rfl, rfl, rfl, rfl, rfl, rfl⟩, rfl, fun _ => rfl⟩
  · exact ⟨⟨rfl, rfl, rfl, rfl, rfl, rfl⟩, rfl, fun _ => rfl⟩

/-- Witness for C7: updating seeded occurrence `"X"` with an empty update
payload is a no-op returning `false`. -/
theorem c7_update_scope_witness :
    update_record dbSeed "X" {} = (dbSeed, false) :=
  (c7_update_scope dbSeed "X" {}).2.2 (Or.inr (by decide))

/-- C8: `delete_record` removes exactly the fact rows with the given
`occurrence_id`, leaves every entity table untouched, and its boolean
return value reports whether a row was removed: deleting an existing id
returns `true` and a repeated delete returns `false`. -/
theorem c8_delete_semantics (db : DB) (occ : String) :
    ((delete_record db occ).1.organism = db.organism ∧
      (delete_record db occ).1.observer = db.observer ∧
      (delete_record db occ).1.location = db.location ∧
      (delete_record db occ).1.event = db.event ∧
      (delete_record db occ).1.media = db.media ∧
      (delete_record db occ).1.datasetMetadata = db.datasetMetadata) ∧
    ((delete_record db occ).1.record =
      db.record.filter (fun rr => !(rr.occurrence_id == some occ))) ∧
    (db.record.any (fun rr => rr.occurrence_id == some occ) = true →
      (delete_record db occ).2 = true ∧
      (delete_record (delete_record db occ).1 occ).2 = false) := by
  have hsecond : ∀ dbx : DB,
      dbx.record.any (fun rr => rr.occurrence_id == some occ) = false →
      (delete_record dbx occ).2 = false := by
    intro dbx hx
    unfold delete_record
    split
    · next hc => rw [hx] at hc; exact Bool.noConfusion hc
    · rfl
  unfold delete_record
  split
  · next h =>
    refine ⟨⟨rfl, rfl, rfl, rfl, rfl, rfl⟩, rfl, fun _ => ⟨rfl, ?_⟩⟩
    exact hsecond _ (any_filter_not _ _)
  · next h =>
    have h' : db.record.any (fun rr => rr.occurrence_id == some occ) = false := by
      simpa using h
    refine ⟨⟨rfl, rfl, rfl, rfl, rfl, rfl⟩, ?_, fun hc => ?_⟩
    · exact (filter_not_of_any_false h').symm
    · rw [h'] at hc; exact Bool.noConfusion hc

/-- Witness for C8: delete then re-delete occurrence `"X"` in the seeded
store. -/
theorem c8_delete_semantics_witness :
    (delete_record dbSeed "X").2 = true ∧
      (delete_record (delete_record dbSeed "X").1 "X").2 = false :=
  (c8_delete_semantics dbSeed "X").2.2 (by decide)

/-- C10: auxiliary (non-key) attributes of a deduplicated entity are fixed
at first insert: when the natural key of an Observer, Organism or Media
entity is already present, re-resolving it leaves the store completely
unchanged, whatever auxiliary values the new row carries. -/
theorem c10_aux_attrs_fixed (db : DB) (r : Row) :
    (∀ v, sGet r.recorded_by = some v → hasObs db v = true →
      (_insert_observer db r).1 = db) ∧
    (hasOrg db r.orgIdStr = true → (_insert_organism db r).1 = db) ∧
    (medConflict db (sGet r.external_resource) (sGet r.catalog_number) = true →
      (_insert_media db r).1 = db) := by
  refine ⟨fun v hv hobs => ?_, fun horg => ?_, fun hmed => ?_⟩
  · refine obs_noins ?_
    unfold obsSettled
    rw [hv]
    simpa using hobs
  · have hset : orgSettled r db = true := by unfold orgSettled; simp [horg]
    rw [org_noins hset]
  · exact med_noins hmed

/-- C4 (amended): `add_new_record` returns the supplied occurrence id when
one is present, and `"new_" ++ timestamp` when none is supplied; but in
the latter case the fact row is stored under the *empty-string*
occurrence id — the generated identifier is returned and logged, never
written to the store. -/
theorem c4_add_returns_id (db : DB) (rd : Row) (now : String)
    (hb : rowBindsOk rd = true) :
    (rd.occurrence_id = none →
      ∃ db', add_new_record db rd now = .ok (db', .s ("new_" ++ now)) ∧
        ∃ rr ∈ db'.record, rr.occurrence_id = some "") ∧
    (∀ v, rd.occurrence_id = some (.s v) →
      ∃ db', add_new_record db rd now = .ok (db', .s v) ∧
        ∃ rr ∈ db'.record, rr.occurrence_id = some v) := by
  obtain ⟨db', hpr⟩ := processRow_ok db hb
  have hpo : processOne db rd = db' := by unfold processOne; rw [hpr]
  obtain ⟨rr, hrec, hocc, -⟩ := processOne_rec_ok db hb
  rw [hpo] at hrec
  have hmem : rr ∈ db'.record := by
    rw [hrec]; exact List.mem_append_right _ (List.mem_singleton.mpr rfl)
  constructor
  · intro hnone
    refine ⟨db', ?_, rr, hmem, ?_⟩
    · unfold add_new_record
      rw [hpr, hnone]
      rfl
    · rw [hocc]
      unfold sGet
      rw [hnone]
      rfl
  · intro v hv
    refine ⟨db', ?_, rr, hmem, ?_⟩
    · unfold add_new_record
      rw [hpr, hv]
      rfl
    · rw [hocc]
      unfold sGet
      rw [hv]
      rfl

/-- Witness for C4: a record without an occurrence id gets a generated
return value and is stored under `""`; `rowY` supplies `"Y"` and is stored
under `"Y"`. -/
theorem c4_add_returns_id_witness :
    (∃ db', add_new_record emptyDB rdNoOcc "T0" = .ok (db', .s "new_T0") ∧
      ∃ rr ∈ db'.record, rr.occurrence_id = some "") ∧
    (∃ db', add_new_record emptyDB rowY "T0" = .ok (db', .s "Y") ∧
      ∃ rr ∈ db'.record, rr.occurrence_id = some "Y") :=
  ⟨(c4_add_returns_id emptyDB rdNoOcc "T0" (by decide)).1 rfl,
    (c4_add_returns_id emptyDB rowY "T0" (by decide)).2 "Y" rfl⟩

/-- C4 counterexample: the claim as stated is false — when no
`occurrence_id` is supplied, the returned identifier is generated from the
time, but the fact row written carries the empty string, not the returned
identifier. -/
theorem c4_counterexample_generated_id_not_stored :
    addReturned = .s "new_20250101_000000" ∧
      dbAfterAdd.record.map (fun rr => rr.occurrence_id) = [some ""] ∧
      ¬ (some "" = some ("new_20250101_000000" : String)) :=
  ⟨by decide, by decide, by decide⟩

/-- Witness for C10: `rowXAux` re-presents the keys of the already-stored
observer "Alice", organism "X" and media ("http", "C1") with different
auxiliary attributes; nothing changes. -/
theorem c10_aux_attrs_fixed_witness :
    (_insert_observer dbSeed rowXAux).1 = dbSeed ∧
      (_insert_organism dbSeed rowXAux).1 = dbSeed ∧
      (_insert_media dbSeed rowXAux).1 = dbSeed :=
  ⟨(c10_aux_attrs_fixed dbSeed rowXAux).1 "Alice" (by decide) (by decide),
    (c10_aux_attrs_fixed dbSeed rowXAux).2.1 (by decide),
    (c10_aux_attrs_fixed dbSeed rowXAux).2.2 (by decide)⟩

theorem mem_insertOrd {α : Type _} (le : α → α → Bool) (a x : α) (l : List α) :
    x ∈ insertOrd le a l ↔ x = a ∨ x ∈ l := by
  induction l with
  | nil => simp [insertOrd]
  | cons b t ih =>
    unfold insertOrd
    cases hle : le a b
    · simp only [Bool.false_eq_true, if_false, List.mem_cons, ih]
      tauto
    · simp only [if_true, List.mem_cons]

theorem mem_insSort {α : Type _} (le : α → α → Bool) (x : α) (l : List α) :
    x ∈ insSort le l ↔ x ∈ l := by
  induction l with
  | nil => simp [insSort]
  | cons a t ih =>
    unfold insSort
    rw [mem_insertOrd, ih, List.mem_cons]

theorem passes_noFilters (j : Joined) : passes noFilters j = true := rfl

theorem mem_joinAll (db : DB) (j : Joined) :
    j ∈ joinAll db ↔
      j.1 ∈ db.record ∧ j.2.1 ∈ db.organism ∧ j.2.2.1 ∈ db.observer ∧
        j.2.2.2 ∈ db.location ∧ j.2.1.organism_id = j.1.organism_id ∧
        j.1.observer_id = some j.2.2.1.observer_id ∧
        j.1.location_id = some j.2.2.2.location_id := by
  unfold joinAll
  simp only [List.mem_flatMap, List.mem_filter, List.mem_map]
  constructor
  · rintro ⟨rr, hrr, o, ⟨ho, hoid⟩, ob, ⟨hob, hobid⟩, l, ⟨hl, hlid⟩, heq⟩
    rw [← heq]
    refine ⟨hrr, ho, hob, hl, ?_, ?_, ?_⟩
    · simpa using hoid
    · simpa using hobid
    · simpa using hlid
  · rintro ⟨h1, h2, h3, h4, h5, h6, h7⟩
    exact ⟨j.1, h1, j.2.1, ⟨h2, by simpa using h5⟩, j.2.2.1, ⟨h3, by simpa using h6⟩,
      j.2.2.2, ⟨h4, by simpa using h7⟩, rfl⟩

/-- C5 (amended): the filters of `search_records` are conjoined and each
can only remove rows — a result row appears under filters `a` iff it
appears in the unfiltered search and satisfies every supplied condition —
and the unfiltered search returns exactly one row per fact row whose three
foreign keys resolve in Organism, Observer and Location.  (As stated the
claim is false: the query joins the fact table to the three entity
tables, so a fact row whose foreign key is `NULL` or dangling is dropped
even with zero filters — see the counterexample.) -/
theorem c5_search_filter_semantics (db : DB) (a : SearchArgs) (j : Joined) :
    (j ∈ search_records db a ↔
      j ∈ search_records db noFilters ∧ passes a j = true) ∧
    (j ∈ search_records db noFilters ↔
      (j.1 ∈ db.record ∧ j.2.1 ∈ db.organism ∧ j.2.2.1 ∈ db.observer ∧
        j.2.2.2 ∈ db.location ∧ j.2.1.organism_id = j.1.organism_id ∧
        j.1.observer_id = some j.2.2.1.observer_id ∧
        j.1.location_id = some j.2.2.2.location_id)) := by
  have hmem : ∀ b : SearchArgs,
      j ∈ search_records db b ↔ j ∈ joinAll db ∧ passes b j = true := by
    intro b
    unfold search_records
    rw [mem_insSort, List.mem_filter]
  constructor
  · rw [hmem a, hmem noFilters, passes_noFilters]
    tauto
  · constructor
    · intro h
      exact (mem_joinAll db j).mp ((hmem noFilters).mp h).1
    · intro h
      exact (hmem noFilters).mpr ⟨(mem_joinAll db j).mpr h, passes_noFilters j⟩

/-- C5 counterexample: a store holding one fact row whose `Organism` was
never inserted (NaN `scientific_name`, a `NOT NULL` violation silently
ignored): the zero-filter search returns nothing, not every fact row. -/
theorem c5_counterexample_unresolved_join :
    (load_csv_data emptyDB (some [rowOrphan])).record.length = 1 ∧
      search_records (load_csv_data emptyDB (some [rowOrphan])) noFilters = [] :=
  ⟨by decide, by decide⟩

/-- C9 (amended): a missing (absent) source field is read as the empty
string (textual) or zero (numeric) before any key comparison or storage
call — except `organism_id` and `event_id`, whose fallback is the row's
`occurrence_id` value — so processing a row is identical to processing the
row with those defaults filled in explicitly, no `NULL` is ever stored for
an absent field, and the empty string is a distinct key component from a
populated one (the empty-locality and populated-locality rows get two
distinct Location rows). -/
theorem c9_absent_field_defaults :
    (∀ (db : DB) (r : Row),
      _process_csv_row db (withDefaults r) = _process_csv_row db r) ∧
    ((load_csv_data emptyDB (some [rowOnlyOcc])).organism =
      [⟨"X", "", some "", some "", some "", some "", some ""⟩]) ∧
    ((load_csv_data emptyDB (some [rowOnlyOcc])).record =
      [⟨some "X", some 0, some 0, some "", some "", some 0, some "", "X", "X",
        some 1, some 1, some 1, 1⟩]) ∧
    ((load_csv_data emptyDB (some [rowLocEmpty, rowLocFull])).location.length = 2) :=
  ⟨fun _ _ => rfl, by decide, by decide, by decide⟩

/-- C9 counterexample: the claim as stated is false for `organism_id` — a
row with `occurrence_id` `"X"` and no `organism_id` column stores an
Organism keyed `"X"` (the occurrence-id fallback), not the empty string
the claim prescribes for missing textual fields. -/
theorem c9_counterexample_organism_id_fallback :
    (load_csv_data emptyDB (some [rowOccOnlyOrg])).organism.map
        (fun o => o.organism_id) = ["X"] ∧
      ¬ (("X" : String) = "") :=
  ⟨by decide, by decide⟩

end MarineDB
